import Mathlib

/-!
# MPEG-TS parser: transport header, adaptation field, PES header and PES assembler

A shallow embedding of `tsTransportStream.h`, `tsTransportStream.cpp` and the read loop of
`TS_parser.cpp`.

Conventions of the embedding.

* A `std::vector<uint8_t>` is a `List Nat` whose entries are bytes (`< 256`).
* An object with data members is a structure; a member function takes the object as `self`
  and returns the updated object next to its return value.
* Reading or copying outside a vector is undefined behaviour in C++. A function that does
  so yields `none`; `some` carries the return value and the object after the call.
* Unsigned members are natural numbers, reduced modulo `2 ^ w` where the C++ expression
  can exceed the width `w` of its type; signed members are integers.
* The `float` members (`m_time`, `m_PTS_time`, `m_DTS_time`), the member `m_PIDType`
  (never assigned) and the `Print` functions are left out.
* The output file named by `m_FileName` is the list of the writes appended to it.
-/

namespace MpegTs

/-- Modelled from the spec: the constant `NOT_VALID` of `tsCommon.h`, a header that is not
among the sources. The failure value of the `Parse` functions is -1. -/
def NOT_VALID : Int := -1

/-- Element access `v[i]` on a `std::vector<uint8_t>`; `none` is an access outside the
vector. -/
def byteAt (v : List Nat) (i : Nat) : Option Nat := v[i]?

/-- Conversion of a value to `uint32_t`. -/
def toUInt32 (x : Nat) : Nat := x % 2 ^ 32

/-- Conversion of a `uint8_t` value to `int8_t` (two's complement). -/
def toInt8 (x : Nat) : Int := if x % 256 < 128 then ((x % 256 : Nat) : Int) else ((x % 256 : Nat) : Int) - 256

/-- Conversion of a `uint32_t` value to `int32_t` (two's complement). -/
def toInt32 (x : Nat) : Int :=
  if x % 2 ^ 32 < 2 ^ 31 then ((x % 2 ^ 32 : Nat) : Int) else ((x % 2 ^ 32 : Nat) : Int) - 2 ^ 32

/-! ## class xTS -/

namespace xTS

def TS_PacketLength : Nat := 188
def TS_HeaderLength : Nat := 4
def PES_HeaderLength : Nat := 6
def BaseClockFrequency_Hz : Nat := 90000
def ExtendedClockFrequency_Hz : Nat := 27000000
def BaseClockFrequency_kHz : Nat := 90
def ExtendedClockFrequency_kHz : Nat := 27000
def BaseToExtendedClockMultiplier : Nat := 300

end xTS

/-! ## class xTS_PacketHeader -/

structure xTS_PacketHeader where
  m_SB : Nat
  m_E : Bool
  m_S : Bool
  m_T : Bool
  m_PID : Nat
  m_TSC : Nat
  m_AFC : Nat
  m_CC : Nat
deriving DecidableEq, Inhabited

namespace xTS_PacketHeader

def Reset (_self : xTS_PacketHeader) : xTS_PacketHeader :=
  { m_SB := 0, m_E := false, m_S := false, m_T := false, m_PID := 0, m_TSC := 0, m_AFC := 0,
    m_CC := 0 }

/-- Member function `xTS_PacketHeader::Parse`: the guard is `Input.empty()`, then bytes 0 to 3
are read. -/
def Parse (self : xTS_PacketHeader) (Input : List Nat) : Option (Int × xTS_PacketHeader) :=
  if Input.isEmpty then some (NOT_VALID, self)
  else do
    let some b0 := byteAt Input 0 | none
    let some b1 := byteAt Input 1 | none
    let some b2 := byteAt Input 2 | none
    let some b3 := byteAt Input 3 | none
    some (4,
      { m_SB := b0
        m_E := (b1 &&& 0x80) != 0
        m_S := (b1 &&& 0x40) != 0
        m_T := (b1 &&& 0x20) != 0
        m_PID := ((b1 &&& 0x1F) <<< 8) ||| b2
        m_TSC := (b3 >>> 6) &&& 0x03
        m_AFC := (b3 >>> 4) &&& 0x03
        m_CC := b3 &&& 0x0F })

def getSyncByte (self : xTS_PacketHeader) : Nat := self.m_SB
def hasTransportError (self : xTS_PacketHeader) : Bool := self.m_E
def isPayloadStart (self : xTS_PacketHeader) : Bool := self.m_S
def hasTransportPriority (self : xTS_PacketHeader) : Bool := self.m_T
def hasAdaptationField (self : xTS_PacketHeader) : Bool :=
  if self.m_AFC == 2 || self.m_AFC == 3 then true else false
def getAdaptationFieldControl (self : xTS_PacketHeader) : Nat := self.m_AFC
def getPID (self : xTS_PacketHeader) : Nat := self.m_PID
def getTSC (self : xTS_PacketHeader) : Nat := self.m_TSC
def getAFC (self : xTS_PacketHeader) : Nat := self.m_AFC
def getCC (self : xTS_PacketHeader) : Nat := self.m_CC

end xTS_PacketHeader

/-! ## class xTS_AdaptationField -/

structure xTS_AdaptationField where
  m_AdaptationFieldControl : Nat
  m_AdaptationFieldLength : Nat
  m_DC : Bool
  m_RA : Bool
  m_SP : Bool
  m_PR : Bool
  m_OR : Bool
  m_SF : Bool
  m_TP : Bool
  m_EX : Bool
  m_PCR : Nat
deriving DecidableEq, Inhabited

namespace xTS_AdaptationField

def Reset (_self : xTS_AdaptationField) : xTS_AdaptationField :=
  { m_AdaptationFieldControl := 0, m_AdaptationFieldLength := 0, m_RA := false, m_DC := false,
    m_SP := false, m_PR := false, m_OR := false, m_SF := false, m_TP := false, m_EX := false,
    m_PCR := 0 }

/-- Member function `xTS_AdaptationField::Parse`. `m_PCR` is a `uint32_t`: each `|=` of a
64-bit operand and the final `*=` store the result modulo `2 ^ 32`. -/
def Parse (self : xTS_AdaptationField) (PacketBuffer : List Nat) (AdaptationFieldControl : Nat) :
    Option (Int × xTS_AdaptationField) :=
  let s0 := { self with m_AdaptationFieldControl := AdaptationFieldControl }
  if PacketBuffer.isEmpty then some (NOT_VALID, s0)
  else do
    let some b4 := byteAt PacketBuffer 4 | none
    let some b5 := byteAt PacketBuffer 5 | none
    let s1 : xTS_AdaptationField :=
      { s0 with
        m_AdaptationFieldLength := b4
        m_RA := (b5 &&& 0x80) != 0
        m_DC := (b5 &&& 0x40) != 0
        m_SP := (b5 &&& 0x20) != 0
        m_PR := (b5 &&& 0x10) != 0
        m_OR := (b5 &&& 0x08) != 0
        m_SF := (b5 &&& 0x04) != 0
        m_TP := (b5 &&& 0x02) != 0
        m_EX := (b5 &&& 0x01) != 0 }
    if s1.m_PR == true then do
      let some b6 := byteAt PacketBuffer 6 | none
      let pcr1 := toUInt32 (s1.m_PCR ||| (b6 <<< 25))
      let some b7 := byteAt PacketBuffer 7 | none
      let pcr2 := toUInt32 (pcr1 ||| (b7 <<< 17))
      let some b8 := byteAt PacketBuffer 8 | none
      let pcr3 := toUInt32 (pcr2 ||| (b8 <<< 9))
      let some b9 := byteAt PacketBuffer 9 | none
      let pcr4 := toUInt32 (pcr3 ||| (b9 <<< 1))
      let some b10 := byteAt PacketBuffer 10 | none
      let pcr5 := toUInt32 (pcr4 ||| (b10 >>> 7))
      let pcr6 := toUInt32 (pcr5 * xTS.BaseToExtendedClockMultiplier)
      some ((s1.m_AdaptationFieldLength : Int), { s1 with m_PCR := pcr6 })
    else some ((s1.m_AdaptationFieldLength : Int), s1)

def getAdaptationFieldLength (self : xTS_AdaptationField) : Nat := self.m_AdaptationFieldLength
def getNumBytes (self : xTS_AdaptationField) : Nat := self.m_AdaptationFieldLength + 1

end xTS_AdaptationField

/-! ## class xPES_PacketHeader -/

structure xPES_PacketHeader where
  m_HeaderLength : Int
  m_PacketStartCodePrefix : Nat
  m_StreamId : Nat
  m_PacketLength : Nat
  m_PTS_DTS : Nat
  m_PresentationTimeStamp : Nat
  m_DecodeTimeStamp : Nat
  m_ESCR_flag : Bool
  m_ES_rate_flag : Bool
  m_DSM_trick_mode_flag : Bool
  m_additional_copy_info_flag : Bool
  m_PES_CRC_flag : Bool
  m_PES_extension_flag : Bool
deriving DecidableEq, Inhabited

namespace xPES_PacketHeader

/-- Member function `xPES_PacketHeader::Reset`; it does not assign `m_HeaderLength`. -/
def Reset (self : xPES_PacketHeader) : xPES_PacketHeader :=
  { self with
    m_PacketStartCodePrefix := 0
    m_StreamId := 0
    m_PacketLength := 0
    m_PTS_DTS := 0
    m_PresentationTimeStamp := 0
    m_DecodeTimeStamp := 0
    m_ESCR_flag := false
    m_ES_rate_flag := false
    m_DSM_trick_mode_flag := false
    m_additional_copy_info_flag := false
    m_PES_CRC_flag := false
    m_PES_extension_flag := false }

/-- The five-byte unpacking expression that `xPES_PacketHeader::Parse` writes out for the
presentation and the decode time stamp. Every operand is cast to `uint32_t` before its
shift, so each shifted term is a 32-bit value. -/
def unpackTimeStamp (i9 i10 i11 i12 i13 : Nat) : Nat :=
  toUInt32 (toUInt32 (i9 &&& 0x0E) <<< 30) |||
  toUInt32 (toUInt32 i10 <<< 22) |||
  toUInt32 (toUInt32 (i11 &&& 0xFE) <<< 15) |||
  toUInt32 (toUInt32 i12 <<< 7) |||
  (toUInt32 (i13 &&& 0xFE) >>> 1)

/-- Member function `xPES_PacketHeader::Parse`. `Input` is the copy of `Data` from `Offset`
to the end; building it with `Offset` outside `0 .. Data.size()` is undefined. -/
def Parse (self : xPES_PacketHeader) (Data : List Nat) (Offset : Int) :
    Option (Int × xPES_PacketHeader) :=
  if Data.isEmpty then some (NOT_VALID, self)
  else if Offset < 0 ∨ (Data.length : Int) < Offset then none
  else do
    let Input := Data.drop Offset.toNat
    let some i0 := byteAt Input 0 | none
    let some i1 := byteAt Input 1 | none
    let some i2 := byteAt Input 2 | none
    let some i3 := byteAt Input 3 | none
    let some i4 := byteAt Input 4 | none
    let some i5 := byteAt Input 5 | none
    let some i7 := byteAt Input 7 | none
    let some i8 := byteAt Input 8 | none
    let s1 : xPES_PacketHeader :=
      { self with
        m_PacketStartCodePrefix := (i0 <<< 16) ||| (i1 <<< 8) ||| i2
        m_StreamId := i3
        m_PacketLength := (i4 <<< 8) ||| i5
        m_PTS_DTS := i7 >>> 6
        m_ESCR_flag := (i7 &&& 0x20) != 0
        m_ES_rate_flag := (i7 &&& 0x10) != 0
        m_DSM_trick_mode_flag := (i7 &&& 0x08) != 0
        m_additional_copy_info_flag := (i7 &&& 0x04) != 0
        m_PES_CRC_flag := (i7 &&& 0x02) != 0
        m_PES_extension_flag := (i7 &&& 0x01) != 0
        m_HeaderLength := 9 + (i8 : Int) }
    if s1.m_PTS_DTS == 0x02 then do
      let some i9 := byteAt Input 9 | none
      let some i10 := byteAt Input 10 | none
      let some i11 := byteAt Input 11 | none
      let some i12 := byteAt Input 12 | none
      let some i13 := byteAt Input 13 | none
      some (s1.m_HeaderLength,
        { s1 with m_PresentationTimeStamp := unpackTimeStamp i9 i10 i11 i12 i13 })
    else if s1.m_PTS_DTS == 0x01 then do
      let some i9 := byteAt Input 9 | none
      let some i10 := byteAt Input 10 | none
      let some i11 := byteAt Input 11 | none
      let some i12 := byteAt Input 12 | none
      let some i13 := byteAt Input 13 | none
      some (s1.m_HeaderLength,
        { s1 with m_DecodeTimeStamp := unpackTimeStamp i9 i10 i11 i12 i13 })
    else if s1.m_PTS_DTS == 0x03 then do
      let some i9 := byteAt Input 9 | none
      let some i10 := byteAt Input 10 | none
      let some i11 := byteAt Input 11 | none
      let some i12 := byteAt Input 12 | none
      let some i13 := byteAt Input 13 | none
      let some i14 := byteAt Input 14 | none
      let some i15 := byteAt Input 15 | none
      let some i16 := byteAt Input 16 | none
      let some i17 := byteAt Input 17 | none
      let some i18 := byteAt Input 18 | none
      some (s1.m_HeaderLength,
        { s1 with
          m_PresentationTimeStamp := unpackTimeStamp i9 i10 i11 i12 i13
          m_DecodeTimeStamp := unpackTimeStamp i14 i15 i16 i17 i18 })
    else some (s1.m_HeaderLength, s1)

def getHeaderLength (self : xPES_PacketHeader) : Int := self.m_HeaderLength
def getPacketStartCodePrefix (self : xPES_PacketHeader) : Nat := self.m_PacketStartCodePrefix
def getStreamId (self : xPES_PacketHeader) : Nat := self.m_StreamId
def getPacketLength (self : xPES_PacketHeader) : Nat := self.m_PacketLength

end xPES_PacketHeader

/-! ## class xPES_Assembler -/

inductive eResult where
  | UnexpectedPID
  | StreamPackedLost
  | AssemblingStarted
  | AssemblingContinue
  | AssemblingFinished
deriving DecidableEq, Inhabited

/-- Data members of `xPES_Assembler`. `file` stands for the file named by `m_FileName`: the
list of the byte blocks written to it, oldest first. -/
structure xPES_Assembler where
  m_PID : Int
  m_Buffer : List Nat
  m_BufferSize : Nat
  m_DataOffset : Nat
  m_LastContinuityCounter : Int
  m_Started : Bool
  m_PESH : xPES_PacketHeader
  file : List (List Nat)
deriving DecidableEq, Inhabited

namespace xPES_Assembler

def xBufferReset (self : xPES_Assembler) : xPES_Assembler :=
  { self with
    m_LastContinuityCounter := -1
    m_Started := false
    m_DataOffset := 0
    m_BufferSize := 0
    m_Buffer := [] }

def Init (self : xPES_Assembler) (PID : Int) : xPES_Assembler :=
  { self with
    m_PID := PID
    m_Buffer := []
    m_BufferSize := 0
    m_DataOffset := 0
    m_LastContinuityCounter := -1
    m_Started := false }

/-- Member function `xPES_Assembler::xBufferAppend`: inserts `Data.begin() + Offset` up to
`Data.end()`, a range that exists only for `0 <= Offset <= Data.size()`; `m_BufferSize` is a
`uint32_t`. -/
def xBufferAppend (self : xPES_Assembler) (Data : List Nat) (Offset : Int) :
    Option xPES_Assembler :=
  if Data.isEmpty then some self
  else if Offset < 0 ∨ (Data.length : Int) < Offset then none
  else
    some { self with
      m_Buffer := self.m_Buffer ++ Data.drop Offset.toNat
      m_BufferSize := toUInt32 (self.m_BufferSize + (Data.length - Offset.toNat)) }

/-- Member function `xPES_Assembler::WriteFile`: opens the file for appending and writes
`m_Buffer`. -/
def WriteFile (self : xPES_Assembler) : xPES_Assembler :=
  { self with file := self.file ++ [self.m_Buffer] }

/-- Member function `xPES_Assembler::AbsorbPacket`. The expression
`(m_LastContinuityCounter + 1) & 0x0F` on a two's complement `int` is the remainder modulo 16
in `0 .. 15`. The offsets are sums of a header length 4, an adaptation field size of at most
256 and a PES header length of at most 264, so they do not wrap. -/
def AbsorbPacket (self : xPES_Assembler) (TransportStreamPacket : List Nat)
    (PacketHeader : xTS_PacketHeader) (AdaptationField : xTS_AdaptationField) :
    Option (eResult × xPES_Assembler) :=
  if PacketHeader.isPayloadStart then
    let s1 := if (PacketHeader.getPID : Int) ≠ self.m_PID then self.Init PacketHeader.getPID else self
    let s2 := s1.xBufferReset
    let s3 : xPES_Assembler :=
      { s2 with
        m_Started := true
        m_PESH := s2.m_PESH.Reset
        m_LastContinuityCounter := toInt8 PacketHeader.getCC }
    do
      let r ← s3.m_PESH.Parse TransportStreamPacket
        ((xTS.TS_HeaderLength + AdaptationField.getNumBytes : Nat) : Int)
      let PES_headerLength := r.1
      let s4 : xPES_Assembler := { s3 with m_PESH := r.2 }
      if PES_headerLength = NOT_VALID then
        some (eResult.StreamPackedLost, { s4 with m_Started := false })
      else do
        let s5 ← s4.xBufferAppend TransportStreamPacket
          (((xTS.TS_HeaderLength + AdaptationField.getNumBytes : Nat) : Int) + PES_headerLength)
        some (eResult.AssemblingStarted,
          { s5 with m_LastContinuityCounter := toInt8 PacketHeader.getCC })
  else if (PacketHeader.getCC : Int) ≠ (self.m_LastContinuityCounter + 1) % 16 then
    some (eResult.StreamPackedLost,
      { self with m_LastContinuityCounter := toInt8 PacketHeader.getCC, m_Started := false })
  else if self.m_Started && !PacketHeader.hasAdaptationField then do
    let s1 ← self.xBufferAppend TransportStreamPacket (xTS.TS_HeaderLength : Nat)
    some (eResult.AssemblingContinue,
      { s1 with m_LastContinuityCounter := toInt8 PacketHeader.getCC })
  else if self.m_Started && PacketHeader.hasAdaptationField then do
    let s1 ← self.xBufferAppend TransportStreamPacket
      ((xTS.TS_HeaderLength + AdaptationField.getNumBytes : Nat) : Int)
    let s2 : xPES_Assembler :=
      { s1 with m_LastContinuityCounter := toInt8 PacketHeader.getCC, m_Started := false }
    let s3 := if s2.m_PID = 136 then s2.WriteFile else s2
    some (eResult.AssemblingFinished, s3)
  else
    some (eResult.StreamPackedLost,
      { self with m_Started := false, m_LastContinuityCounter := toInt8 PacketHeader.getCC })

def getPacket (self : xPES_Assembler) : List Nat := self.m_Buffer

/-- Member function `getNumPacketBytes`: the sum of a `uint32_t` and an `int` is formed in
`uint32_t` and returned as `int32_t`. -/
def getNumPacketBytes (self : xPES_Assembler) : Int :=
  toInt32 (((self.m_BufferSize : Int) + self.m_PESH.getHeaderLength) % 2 ^ 32).toNat

def getHeaderLength (self : xPES_Assembler) : Int := self.m_PESH.getHeaderLength

end xPES_Assembler

/-! ## The read loop of `main` -/

/-- The header as `main` prepares it for a packet: `Reset`, then `Parse`. -/
def prepareHeader (h : xTS_PacketHeader) (TS_PacketBuffer : List Nat) : Option xTS_PacketHeader :=
  (h.Reset.Parse TS_PacketBuffer).map Prod.snd

/-- The adaptation field as `main` prepares it for a packet: `Reset`, then `Parse` only when
the header reports an adaptation field. -/
def prepareAdaptationField (a : xTS_AdaptationField) (TS_PacketBuffer : List Nat)
    (TS_PacketHeader : xTS_PacketHeader) : Option xTS_AdaptationField :=
  if TS_PacketHeader.hasAdaptationField then
    (a.Reset.Parse TS_PacketBuffer TS_PacketHeader.getAdaptationFieldControl).map Prod.snd
  else some a.Reset

/-- The three objects `main` keeps across iterations. `main` constructs them without
initialising their members and does not call `Init`, so the state before the first packet
is a parameter. -/
structure LoopState where
  TS_PacketHeader : xTS_PacketHeader
  TS_PacketAdaptationField : xTS_AdaptationField
  PES_Assembler : xPES_Assembler
deriving DecidableEq, Inhabited

/-- One iteration of the `while` loop of `main` on a packet that was read in full: the
packet reaches the assembler only when its sync byte is `'G'` and its PID is 136. The result
of `AbsorbPacket` is returned when the call is made. -/
def mainIteration (st : LoopState) (TS_PacketBuffer : List Nat) :
    Option (Option eResult × LoopState) := do
  let hdr ← prepareHeader st.TS_PacketHeader TS_PacketBuffer
  if hdr.getSyncByte = 'G'.toNat ∧ hdr.getPID = 136 then do
    let af ← prepareAdaptationField st.TS_PacketAdaptationField TS_PacketBuffer hdr
    let r ← st.PES_Assembler.AbsorbPacket TS_PacketBuffer hdr af
    some (some r.1, { TS_PacketHeader := hdr, TS_PacketAdaptationField := af, PES_Assembler := r.2 })
  else
    some (none,
      { TS_PacketHeader := hdr
        TS_PacketAdaptationField := st.TS_PacketAdaptationField.Reset
        PES_Assembler := st.PES_Assembler })

/-- A packet handed to the assembler the way `main` does it, without the sync-byte and PID
gate: header and adaptation field are prepared from the packet, then `AbsorbPacket` runs. -/
def absorbPrepared (A : xPES_Assembler) (P : List Nat) : Option (eResult × xPES_Assembler) := do
  let hdr ← prepareHeader default P
  let af ← prepareAdaptationField default P hdr
  A.AbsorbPacket P hdr af

/-- A sequence of packets handed to the assembler one after the other; the results are
collected in order. -/
def absorbAll (A : xPES_Assembler) : List (List Nat) → Option (List eResult × xPES_Assembler)
  | [] => some ([], A)
  | P :: rest => do
    let r ← absorbPrepared A P
    let rs ← absorbAll r.2 rest
    some (r.1 :: rs.1, rs.2)

/-! ## Vocabulary of the statements -/

/-- A sequence of `AbsorbPacket` calls, each with its packet, header object and adaptation
field object; the assembler after the last call. -/
def absorbCalls (A : xPES_Assembler) :
    List (List Nat × xTS_PacketHeader × xTS_AdaptationField) → Option xPES_Assembler
  | [] => some A
  | c :: rest => do
    let r ← A.AbsorbPacket c.1 c.2.1 c.2.2
    absorbCalls r.2 rest


/-- Byte `i` counted from `Offset` in `Data` (`d[i] = buffer[offset + i]`); 0 outside the
buffer. -/
def byteFrom (Data : List Nat) (Offset i : Nat) : Nat := Data.getD (Offset + i) 0

/-- A PES header at offset `o` of `P` lies within `P`: the whole header of `9 + d[8]` bytes,
and with it the nine fixed bytes, ends inside `P`, and so do the five time stamp bytes
announced by PTS/DTS flag 1 or 2 and the ten announced by flag 3. -/
def pesHeaderWithin (P : List Nat) (o : Nat) : Prop :=
  o + 9 + byteFrom P o 8 ≤ P.length ∧
  (byteFrom P o 7 >>> 6 = 1 ∨ byteFrom P o 7 >>> 6 = 2 → o + 14 ≤ P.length) ∧
  (byteFrom P o 7 >>> 6 = 3 → o + 19 ≤ P.length)

/-- The marker-bit pattern of five bytes that carries the 33-bit time stamp `v` with the
`0010` PTS-only nibble in front. -/
def ptsPattern (v : Nat) : List Nat :=
  [0x21 ||| (((v >>> 30) &&& 7) <<< 1), (v >>> 22) &&& 0xFF,
    (((v >>> 15) &&& 0x7F) <<< 1) ||| 1, (v >>> 7) &&& 0xFF, ((v &&& 0x7F) <<< 1) ||| 1]

/-- The 33-bit base of the program clock reference as the bytes 6 to 10 of a packet give it:
`(b6 << 25) | (b7 << 17) | (b8 << 9) | (b9 << 1) | (b10 >> 7)` over unbounded integers. -/
def pcrBase (PacketBuffer : List Nat) : Nat :=
  (byteFrom PacketBuffer 0 6 <<< 25) ||| (byteFrom PacketBuffer 0 7 <<< 17) |||
    (byteFrom PacketBuffer 0 8 <<< 9) ||| (byteFrom PacketBuffer 0 9 <<< 1) |||
    (byteFrom PacketBuffer 0 10 >>> 7)

/-- The five-byte time stamp expression
`((b9 & 0x0E) << 30) | (b10 << 22) | ((b11 & 0xFE) << 15) | (b12 << 7) | ((b13 & 0xFE) >> 1)`
over unbounded integers. -/
def ptsFormula (b9 b10 b11 b12 b13 : Nat) : Nat :=
  ((b9 &&& 0x0E) <<< 30) ||| (b10 <<< 22) ||| ((b11 &&& 0xFE) <<< 15) ||| (b12 <<< 7) |||
    ((b13 &&& 0xFE) >>> 1)

/-! ## Concrete packets -/

/-- A PES header of 14 bytes: start code `0x000001`, stream id `0xC0`, packet length 0,
PTS/DTS flag 2, header data length 5, then the pattern of time stamp 900000. -/
def pesHeaderPts900000 : List Nat :=
  [0x00, 0x00, 0x01, 0xC0, 0x00, 0x00, 0x80, 0x80, 0x05] ++ ptsPattern 900000

/-- The nine fixed bytes of a PES header whose PTS/DTS flag is 2, and nothing after them. -/
def pesHeaderNineBytes : List Nat := [0x00, 0x00, 0x01, 0xC0, 0x00, 0x00, 0x80, 0x80, 0x00]

/-- A start packet of PID 136, continuity counter 0, adaptation-field control 1 (payload
only). The payload begins at byte 4 with a PES header of 9 bytes (start code `0x000001`,
stream id `0xC0`, no time stamp, header data length 0), followed by `0x00 0xAA 0xBB ...`. -/
def startPacketNoAF : List Nat :=
  [0x47, 0x40, 0x88, 0x10, 0x00, 0x00, 0x01, 0xC0, 0x00, 0x00, 0x80, 0x00, 0x00, 0x00, 0xAA,
    0xBB] ++ List.replicate 172 0xFF

/-- A start packet with continuity counter 0 and an adaptation field of length 1; the PES
header of `pesHeaderPts900000` begins at byte 6 and the payload at byte 20. The PID goes
into bytes 1 and 2. -/
def startPacket (pid : Nat) : List Nat :=
  [0x47, 0x40 ||| (pid >>> 8), pid &&& 0xFF, 0x30, 0x01, 0x00] ++ pesHeaderPts900000 ++
    List.replicate 168 0xAA

/-- A packet without payload-unit-start bit and without adaptation field, continuity
counter `cc`, 184 payload bytes `fill`. -/
def continuationPacket (pid cc fill : Nat) : List Nat :=
  [0x47, pid >>> 8, pid &&& 0xFF, 0x10 ||| cc] ++ List.replicate 184 fill

/-- A packet without payload-unit-start bit, continuity counter `cc`, with an adaptation
field of length 7 (flags 0, six stuffing bytes); the payload begins at byte 12. -/
def lastPacket (pid cc : Nat) : List Nat :=
  [0x47, pid >>> 8, pid &&& 0xFF, 0x30 ||| cc, 0x07, 0x00, 0xFF, 0xFF, 0xFF, 0xFF, 0xFF, 0xFF] ++
    List.replicate 176 0xDD

/-- An assembler in the middle of a unit: tracked PID `pid`, recorded counter `last`, one
byte in the buffer, nothing written yet. -/
def assembling (pid last : Int) : xPES_Assembler :=
  { ((default : xPES_Assembler).Init pid) with
    m_Started := true
    m_LastContinuityCounter := last
    m_Buffer := [0xAA]
    m_BufferSize := 1 }

/-- The transport header of `continuationPacket 136 cc fill`. -/
def continuationHeader (cc : Nat) : xTS_PacketHeader :=
  { m_SB := 0x47, m_E := false, m_S := false, m_T := false, m_PID := 136, m_TSC := 0,
    m_AFC := 1, m_CC := cc }

/-- A PES header of 19 bytes with PTS/DTS flag 3 and header data length 10: the five bytes
`0x31 0x00 0x37 0x77 0x41` for the presentation and `0x11 0x00 0x05 0xBF 0x21` for the decode
time stamp. -/
def pesHeaderPtsDts : List Nat :=
  [0x00, 0x00, 0x01, 0xE0, 0x00, 0x00, 0x80, 0xC0, 0x0A, 0x31, 0x00, 0x37, 0x77, 0x41, 0x11,
    0x00, 0x05, 0xBF, 0x21]

/-- A packet of PID 136 that is all adaptation field (control 2, length 183) with the PCR
flag set and the bytes `b6 .. b10` of the program clock reference. -/
def pcrPacket (b6 b7 b8 b9 b10 : Nat) : List Nat :=
  [0x47, 0x00, 0x88, 0x20, 0xB7, 0x10, b6, b7, b8, b9, b10, 0x00] ++ List.replicate 176 0xFF

/-- A packet of PID 136 with an adaptation field of length 7 whose flag byte is `flags`
(without the PCR bit: six stuffing bytes follow). -/
def flagsPacket (flags : Nat) : List Nat :=
  [0x47, 0x00, 0x88, 0x30, 0x07, flags, 0xFF, 0xFF, 0xFF, 0xFF, 0xFF, 0xFF] ++
    List.replicate 176 0xDD

/-- The first five bytes of a PES header, and nothing after them. -/
def pesHeaderFiveBytes : List Nat := [0x00, 0x00, 0x01, 0xC0, 0x00]

/-- A start packet of PID 136 with an adaptation field of length 1 whose PES header at byte 6
declares header data length 255: the header would end at byte 270. -/
def oversizedStartPacket : List Nat :=
  [0x47, 0x40, 0x88, 0x30, 0x01, 0x00, 0x00, 0x00, 0x01, 0xC0, 0x00, 0x00, 0x80, 0x00, 0xFF] ++
    List.replicate 173 0xAA

/-- The start packet `startPacket 136` with the three bytes `p0 p1 p2` in the place of the
start-code prefix. -/
def startPacketWithPrefix (p0 p1 p2 : Nat) : List Nat :=
  [0x47, 0x40, 0x88, 0x30, 0x01, 0x00, p0, p1, p2, 0xC0, 0x00, 0x00, 0x80, 0x80, 0x05] ++
    ptsPattern 900000 ++ List.replicate 168 0xAA

/-- A start packet of PID 136 without adaptation field (control 1), continuity counter 0: a
PES header of 9 bytes at byte 4 (start code `0x000001`, stream id `0xC0`, no time stamp,
header data length 0) and 175 payload bytes `0xFF`. -/
def startPacketNoAFPayloadFF : List Nat :=
  [0x47, 0x40, 0x88, 0x10, 0x00, 0x00, 0x01, 0xC0, 0x00, 0x00, 0x80, 0x00, 0x00] ++
    List.replicate 175 0xFF

/-- A PES header of 14 bytes with PTS/DTS flag 2 whose first time stamp byte is `0x25`, that
is, with bit 2 set under the mask `0x0E`; the other four bytes carry only marker bits. -/
def pesHeaderPtsHighBit : List Nat :=
  [0x00, 0x00, 0x01, 0xC0, 0x00, 0x00, 0x80, 0x80, 0x05, 0x25, 0x00, 0x01, 0x00, 0x01]

/-- A packet of PID 136 whose adaptation-field length byte is `len`; the flag byte is 0. -/
def lengthPacket (len : Nat) : List Nat :=
  [0x47, 0x00, 0x88, 0x30, len, 0x00] ++ List.replicate 182 0xFF

/-- One unit of PID 136 that does not end: `startPacket 136`, then `k` continuation packets
with the counters 1, 2, ... modulo 16. -/
def longUnit (k : Nat) : List (List Nat) :=
  startPacket 136 ::
    (List.range k).map (fun i => continuationPacket 136 ((1 + i) % 16) 0xBB)

/-! ## Lemmas -/

set_option maxRecDepth 100000

/-- A list with an element is not empty. -/
theorem isEmpty_false_of_lt {Data : List Nat} {n : Nat} (h : n < Data.length) :
    Data.isEmpty = false := by
  cases Data with
  | nil => simp at h
  | cons a l => rfl

/-- A value below 128 survives the conversion to `int8_t`. -/
theorem toInt8_of_lt {c : Nat} (h : c < 128) : toInt8 c = (c : Int) := by
  unfold toInt8
  have : c % 256 = c := by omega
  simp [this, h]

/-- Masking with a single bit and comparing with 0 tests that bit. -/
theorem and_two_pow_ne_zero (x k : Nat) : ((x &&& 2 ^ k) != 0) = x.testBit k := by
  rw [Nat.and_two_pow]
  cases x.testBit k <;> simp

/-- The flag bits and the upper PID bits packed into byte 1 of a transport header come back
under the masks of `Parse`. -/
theorem byte1_fields : ∀ q, q < 32 → ∀ e s t : Bool,
    (((e.toNat <<< 7) ||| (s.toNat <<< 6) ||| (t.toNat <<< 5) ||| q) &&& 0x80 != 0) = e ∧
    (((e.toNat <<< 7) ||| (s.toNat <<< 6) ||| (t.toNat <<< 5) ||| q) &&& 0x40 != 0) = s ∧
    (((e.toNat <<< 7) ||| (s.toNat <<< 6) ||| (t.toNat <<< 5) ||| q) &&& 0x20 != 0) = t ∧
    ((e.toNat <<< 7) ||| (s.toNat <<< 6) ||| (t.toNat <<< 5) ||| q) &&& 0x1F = q := by
  decide

/-- The three fields packed into byte 3 of a transport header come back under the shifts
and masks of `Parse`. -/
theorem byte3_fields : ∀ tsc, tsc < 4 → ∀ afc, afc < 4 → ∀ cc, cc < 16 →
    (((tsc <<< 6) ||| (afc <<< 4) ||| cc) >>> 6) &&& 0x03 = tsc ∧
    (((tsc <<< 6) ||| (afc <<< 4) ||| cc) >>> 4) &&& 0x03 = afc ∧
    ((tsc <<< 6) ||| (afc <<< 4) ||| cc) &&& 0x0F = cc := by
  decide

/-- A number is its bits above bit 7, shifted back, joined with its low eight bits. -/
theorem shift8_or_low (p : Nat) : ((p >>> 8) <<< 8) ||| (p &&& 0xFF) = p := by
  have h := Nat.and_pow_two_sub_one_eq_mod p 8
  norm_num at h
  rw [h, Nat.shiftLeft_eq, Nat.shiftRight_eq_div_pow, Nat.mul_comm,
    ← Nat.mul_add_lt_is_or (Nat.mod_lt p (by norm_num))]
  exact Nat.div_add_mod p (2 ^ 8)

/-- A list whose first four entries are known starts with them. -/
theorem eq_cons4_of_take {Input : List Nat} {a b c d : Nat} (h : Input.take 4 = [a, b, c, d]) :
    Input = a :: b :: c :: d :: Input.drop 4 := by
  have := List.take_append_drop 4 Input
  rw [h] at this
  simpa using this.symm

/-- Reading inside the copy of `Data` from `Offset` gives the byte of `Data` at that place. -/
theorem byteAt_drop (Data : List Nat) (Offset i : Nat) (h : Offset + i < Data.length) :
    byteAt (Data.drop Offset) i = some (byteFrom Data Offset i) := by
  simp [byteAt, byteFrom, List.getElem?_drop, List.getD, List.getElem?_eq_getElem h]

/-- Reading inside a buffer gives its byte. -/
theorem byteAt_eq (P : List Nat) (i : Nat) (h : i < P.length) :
    byteAt P i = some (byteFrom P 0 i) := by
  have := byteAt_drop P 0 i (by omega)
  simpa using this

/-- When every byte that `xPES_PacketHeader::Parse` reads is inside the buffer, the call
returns `9 + d[8]` and the fixed fields hold the values of the bytes. -/
theorem PES_Parse_within (self : xPES_PacketHeader) (Data : List Nat) (Offset : Nat)
    (h9 : Offset + 9 ≤ Data.length)
    (h14 : byteFrom Data Offset 7 >>> 6 = 1 ∨ byteFrom Data Offset 7 >>> 6 = 2 →
      Offset + 14 ≤ Data.length)
    (h19 : byteFrom Data Offset 7 >>> 6 = 3 → Offset + 19 ≤ Data.length) :
    ∃ h, self.Parse Data (Offset : Int) = some (9 + (byteFrom Data Offset 8 : Int), h) ∧
      h.m_PacketStartCodePrefix =
        ((byteFrom Data Offset 0 <<< 16) ||| (byteFrom Data Offset 1 <<< 8) |||
          byteFrom Data Offset 2) ∧
      h.m_StreamId = byteFrom Data Offset 3 ∧
      h.m_PacketLength = ((byteFrom Data Offset 4 <<< 8) ||| byteFrom Data Offset 5) ∧
      h.m_PTS_DTS = byteFrom Data Offset 7 >>> 6 ∧
      h.m_ESCR_flag = (byteFrom Data Offset 7).testBit 5 ∧
      h.m_ES_rate_flag = (byteFrom Data Offset 7).testBit 4 ∧
      h.m_DSM_trick_mode_flag = (byteFrom Data Offset 7).testBit 3 ∧
      h.m_additional_copy_info_flag = (byteFrom Data Offset 7).testBit 2 ∧
      h.m_PES_CRC_flag = (byteFrom Data Offset 7).testBit 1 ∧
      h.m_PES_extension_flag = (byteFrom Data Offset 7).testBit 0 ∧
      h.m_HeaderLength = 9 + (byteFrom Data Offset 8 : Int) := by
  have hne : Data.isEmpty = false := isEmpty_false_of_lt (n := Offset) (by omega)
  have hoff : ¬ ((Offset : Int) < 0 ∨ (Data.length : Int) < (Offset : Int)) := by omega
  have r : ∀ i, i < 9 → byteAt (Data.drop Offset) i = some (byteFrom Data Offset i) :=
    fun i hi => byteAt_drop Data Offset i (by omega)
  have f5 := and_two_pow_ne_zero (byteFrom Data Offset 7) 5
  have f4 := and_two_pow_ne_zero (byteFrom Data Offset 7) 4
  have f3 := and_two_pow_ne_zero (byteFrom Data Offset 7) 3
  have f2 := and_two_pow_ne_zero (byteFrom Data Offset 7) 2
  have f1 := and_two_pow_ne_zero (byteFrom Data Offset 7) 1
  have f0 := and_two_pow_ne_zero (byteFrom Data Offset 7) 0
  norm_num at f5 f4 f3 f2 f1 f0
  unfold xPES_PacketHeader.Parse
  simp only [hne, hoff, Bool.false_eq_true, if_false, Int.toNat_ofNat,
    r 0 (by omega), r 1 (by omega), r 2 (by omega), r 3 (by omega), r 4 (by omega),
    r 5 (by omega), r 7 (by omega), r 8 (by omega)]
  by_cases c2 : byteFrom Data Offset 7 >>> 6 = 2
  · have hl := h14 (Or.inr c2)
    have r2 : ∀ i, i < 14 → byteAt (Data.drop Offset) i = some (byteFrom Data Offset i) :=
      fun i hi => byteAt_drop Data Offset i (by omega)
    simp [c2, r2 9 (by omega), r2 10 (by omega), r2 11 (by omega), r2 12 (by omega), r2 13 (by omega), f0, f1, f2, f3, f4, f5]
  · by_cases c1 : byteFrom Data Offset 7 >>> 6 = 1
    · have hl := h14 (Or.inl c1)
      have r2 : ∀ i, i < 14 → byteAt (Data.drop Offset) i = some (byteFrom Data Offset i) :=
        fun i hi => byteAt_drop Data Offset i (by omega)
      simp [c1, r2 9 (by omega), r2 10 (by omega), r2 11 (by omega), r2 12 (by omega),
        r2 13 (by omega), f0, f1, f2, f3, f4, f5]
    · by_cases c3 : byteFrom Data Offset 7 >>> 6 = 3
      · have hl := h19 c3
        have r2 : ∀ i, i < 19 → byteAt (Data.drop Offset) i = some (byteFrom Data Offset i) :=
          fun i hi => byteAt_drop Data Offset i (by omega)
        simp [c3, r2 9 (by omega), r2 10 (by omega), r2 11 (by omega), r2 12 (by omega),
          r2 13 (by omega), r2 14 (by omega), r2 15 (by omega), r2 16 (by omega),
          r2 17 (by omega), r2 18 (by omega), f0, f1, f2, f3, f4, f5]
      · simp [c1, c2, c3, f0, f1, f2, f3, f4, f5]

/-- The header of a buffer of at least four bytes is parsed. -/
theorem prepareHeader_isSome (h0 : xTS_PacketHeader) (P : List Nat) (hlen : 4 ≤ P.length) :
    ∃ H, prepareHeader h0 P = some H := by
  have hne : P.isEmpty = false := isEmpty_false_of_lt (n := 0) (by omega)
  simp [prepareHeader, xTS_PacketHeader.Parse, hne, byteAt_eq P 0 (by omega),
    byteAt_eq P 1 (by omega), byteAt_eq P 2 (by omega), byteAt_eq P 3 (by omega)]

/-- A parsed continuity counter has four bits. -/
theorem prepareHeader_getCC_le {h0 : xTS_PacketHeader} {P : List Nat} {H : xTS_PacketHeader}
    (hH : prepareHeader h0 P = some H) (hlen : 4 ≤ P.length) : H.getCC ≤ 15 := by
  have hne : P.isEmpty = false := isEmpty_false_of_lt (n := 0) (by omega)
  simp [prepareHeader, xTS_PacketHeader.Parse, hne, byteAt_eq P 0 (by omega),
    byteAt_eq P 1 (by omega), byteAt_eq P 2 (by omega), byteAt_eq P 3 (by omega)] at hH
  subst hH
  exact Nat.and_le_right

/-- With an adaptation field reported and at least 11 bytes, the caller parses the
adaptation field and its length is byte 4. -/
theorem prepareAdaptationField_present (a : xTS_AdaptationField) (P : List Nat)
    (H : xTS_PacketHeader) (hlen : 11 ≤ P.length) (hAF : H.hasAdaptationField = true) :
    ∃ AF, prepareAdaptationField a P H = some AF ∧
      AF.getAdaptationFieldLength = byteFrom P 0 4 := by
  have hne : P.isEmpty = false := isEmpty_false_of_lt (n := 0) (by omega)
  unfold prepareAdaptationField xTS_AdaptationField.Parse
  simp only [hAF, if_true, hne, Bool.false_eq_true, if_false, byteAt_eq P 4 (by omega),
    byteAt_eq P 5 (by omega), byteAt_eq P 6 (by omega), byteAt_eq P 7 (by omega),
    byteAt_eq P 8 (by omega), byteAt_eq P 9 (by omega), byteAt_eq P 10 (by omega)]
  split <;> exact ⟨_, rfl, rfl⟩

/-- Without an adaptation field reported the caller passes the `Reset` object, whose
`getNumBytes` is 1. -/
theorem prepareAdaptationField_absent (a : xTS_AdaptationField) (P : List Nat)
    (H : xTS_PacketHeader) (hAF : H.hasAdaptationField = false) :
    prepareAdaptationField a P H = some a.Reset ∧ a.Reset.getNumBytes = 1 := by
  simp [prepareAdaptationField, hAF, xTS_AdaptationField.Reset, xTS_AdaptationField.getNumBytes]

/-- Appending from an offset inside a non-empty packet. -/
theorem xBufferAppend_of_le (A : xPES_Assembler) (Data : List Nat) (n : Nat)
    (hne : Data.isEmpty = false) (hn : n ≤ Data.length) :
    A.xBufferAppend Data (n : Int) =
      some { A with
        m_Buffer := A.m_Buffer ++ Data.drop n
        m_BufferSize := toUInt32 (A.m_BufferSize + (Data.length - n)) } := by
  simp [xPES_Assembler.xBufferAppend, hne, hn]

/-- Appending leaves file, PID and the started flag alone. -/
theorem xBufferAppend_file {A s : xPES_Assembler} {Data : List Nat} {o : Int}
    (h : A.xBufferAppend Data o = some s) :
    s.file = A.file ∧ s.m_PID = A.m_PID ∧ s.m_Started = A.m_Started := by
  unfold xPES_Assembler.xBufferAppend at h
  split at h
  · cases h; exact ⟨rfl, rfl, rfl⟩
  · split at h
    · cases h
    · cases h; exact ⟨rfl, rfl, rfl⟩

/-- The continuity branch of `AbsorbPacket`. -/
theorem AbsorbPacket_mismatch (A : xPES_Assembler) (P : List Nat) (H : xTS_PacketHeader)
    (AF : xTS_AdaptationField) (hS : H.isPayloadStart = false)
    (hne : (H.getCC : Int) ≠ (A.m_LastContinuityCounter + 1) % 16) :
    A.AbsorbPacket P H AF =
      some (eResult.StreamPackedLost,
        { A with m_LastContinuityCounter := toInt8 H.getCC, m_Started := false }) := by
  simp [xPES_Assembler.AbsorbPacket, hS, hne]

/-- The continuation branch of `AbsorbPacket`. -/
theorem AbsorbPacket_continue (A : xPES_Assembler) (P : List Nat) (H : xTS_PacketHeader)
    (AF : xTS_AdaptationField) (hS : H.isPayloadStart = false)
    (hcc : (H.getCC : Int) = (A.m_LastContinuityCounter + 1) % 16)
    (hst : A.m_Started = true) (hAF : H.hasAdaptationField = false) :
    A.AbsorbPacket P H AF =
      (A.xBufferAppend P (xTS.TS_HeaderLength : Nat)).bind fun s1 =>
        some (eResult.AssemblingContinue,
          { s1 with m_LastContinuityCounter := toInt8 H.getCC }) := by
  simp [xPES_Assembler.AbsorbPacket, hS, hcc, hst, hAF]

/-- The completion branch of `AbsorbPacket`. -/
theorem AbsorbPacket_finish (A : xPES_Assembler) (P : List Nat) (H : xTS_PacketHeader)
    (AF : xTS_AdaptationField) (hS : H.isPayloadStart = false)
    (hcc : (H.getCC : Int) = (A.m_LastContinuityCounter + 1) % 16)
    (hst : A.m_Started = true) (hAF : H.hasAdaptationField = true) :
    A.AbsorbPacket P H AF =
      (A.xBufferAppend P ((xTS.TS_HeaderLength + AF.getNumBytes : Nat) : Int)).bind fun s1 =>
        some (eResult.AssemblingFinished,
          if s1.m_PID = 136 then
            ({ s1 with m_LastContinuityCounter := toInt8 H.getCC, m_Started := false } :
              xPES_Assembler).WriteFile
          else { s1 with m_LastContinuityCounter := toInt8 H.getCC, m_Started := false }) := by
  simp [xPES_Assembler.AbsorbPacket, hS, hcc, hst, hAF]

/-- The last branch of `AbsorbPacket`: the counter fits and no unit is open. -/
theorem AbsorbPacket_idle (A : xPES_Assembler) (P : List Nat) (H : xTS_PacketHeader)
    (AF : xTS_AdaptationField) (hS : H.isPayloadStart = false)
    (hcc : (H.getCC : Int) = (A.m_LastContinuityCounter + 1) % 16)
    (hst : A.m_Started = false) :
    A.AbsorbPacket P H AF =
      some (eResult.StreamPackedLost,
        { A with m_Started := false, m_LastContinuityCounter := toInt8 H.getCC }) := by
  simp [xPES_Assembler.AbsorbPacket, hS, hcc, hst]

/-- The start branch of `AbsorbPacket`: the state `s3` in which the PES header is parsed, and
what follows the parse. -/
theorem AbsorbPacket_start (A : xPES_Assembler) (P : List Nat) (H : xTS_PacketHeader)
    (AF : xTS_AdaptationField) (hS : H.isPayloadStart = true) :
    ∃ s3 : xPES_Assembler, s3.file = A.file ∧ s3.m_Buffer = [] ∧ s3.m_BufferSize = 0 ∧
      s3.m_PID = (H.getPID : Int) ∧ s3.m_Started = true ∧
      s3.m_LastContinuityCounter = toInt8 H.getCC ∧
      A.AbsorbPacket P H AF =
        (s3.m_PESH.Parse P ((xTS.TS_HeaderLength + AF.getNumBytes : Nat) : Int)).bind fun r =>
          if r.1 = NOT_VALID then
            some (eResult.StreamPackedLost, { s3 with m_PESH := r.2, m_Started := false })
          else
            (({ s3 with m_PESH := r.2 } : xPES_Assembler).xBufferAppend P
              (((xTS.TS_HeaderLength + AF.getNumBytes : Nat) : Int) + r.1)).bind fun s5 =>
              some (eResult.AssemblingStarted,
                { s5 with m_LastContinuityCounter := toInt8 H.getCC }) := by
  refine ⟨{ m_PID := (H.getPID : Int), m_Buffer := [], m_BufferSize := 0, m_DataOffset := 0,
            m_LastContinuityCounter := toInt8 H.getCC, m_Started := true,
            m_PESH := A.m_PESH.Reset, file := A.file }, rfl, rfl, rfl, rfl, rfl, rfl, ?_⟩
  obtain ⟨pid, buf, sz, off, lcc, st, pesh, file⟩ := A
  by_cases hp : (H.getPID : Int) = pid
  · subst hp
    simp only [xPES_Assembler.AbsorbPacket, hS, if_true, ne_eq, not_true_eq_false, if_false]
    rfl
  · simp only [xPES_Assembler.AbsorbPacket, hS, if_true, hp, ne_eq, not_false_eq_true]
    rfl

/-- A start packet whose PES header, at the offset the code computes, lies within the
packet. -/
theorem AbsorbPacket_start_within (A : xPES_Assembler) (P : List Nat) (H : xTS_PacketHeader)
    (AF : xTS_AdaptationField) (hS : H.isPayloadStart = true) (hc : H.getCC ≤ 15)
    (hw : pesHeaderWithin P (4 + AF.getNumBytes)) :
    ∃ s, A.AbsorbPacket P H AF = some (eResult.AssemblingStarted, s) ∧
      s.m_Buffer = P.drop (4 + AF.getNumBytes + 9 + byteFrom P (4 + AF.getNumBytes) 8) ∧
      s.m_PID = (H.getPID : Int) ∧ s.m_Started = true ∧
      s.m_LastContinuityCounter = (H.getCC : Int) ∧ s.file = A.file ∧
      s.m_PESH.m_HeaderLength = 9 + (byteFrom P (4 + AF.getNumBytes) 8 : Int) := by
  obtain ⟨hfit, h14, h19⟩ := hw
  obtain ⟨s3, hf, hb, _, hp, hst, hl, he⟩ := AbsorbPacket_start A P H AF hS
  obtain ⟨ph, hparse, hph⟩ := PES_Parse_within s3.m_PESH P (4 + AF.getNumBytes) (by omega) h14 h19
  have hne : P.isEmpty = false := isEmpty_false_of_lt (n := 0) (by omega)
  have hnv : ¬ (9 + (byteFrom P (4 + AF.getNumBytes) 8 : Int) = NOT_VALID) := by
    unfold NOT_VALID; omega
  have hoff : ((xTS.TS_HeaderLength + AF.getNumBytes : Nat) : Int) +
      (9 + (byteFrom P (4 + AF.getNumBytes) 8 : Int)) =
      ((4 + AF.getNumBytes + 9 + byteFrom P (4 + AF.getNumBytes) 8 : Nat) : Int) := by
    unfold xTS.TS_HeaderLength; push_cast; ring
  have hparse2 : s3.m_PESH.Parse P ((xTS.TS_HeaderLength + AF.getNumBytes : Nat) : Int) =
      some (9 + (byteFrom P (4 + AF.getNumBytes) 8 : Int), ph) := hparse
  rw [he, hparse2]
  simp only [Option.some_bind, hnv, if_false, hoff]
  rw [xBufferAppend_of_le _ P _ hne (by omega)]
  simp only [Option.some_bind]
  refine ⟨_, rfl, ?_, hp, hst, toInt8_of_lt (by omega), hf, ?_⟩
  · simp [hb]
  · exact hph.2.2.2.2.2.2.2.2.2.2

/-- A completion packet whose adaptation field ends inside the packet. -/
theorem AbsorbPacket_finish_within (A : xPES_Assembler) (P : List Nat) (H : xTS_PacketHeader)
    (AF : xTS_AdaptationField) (hlen : P.length = 188) (hst : A.m_Started = true)
    (hS : H.isPayloadStart = false)
    (hcc : (H.getCC : Int) = (A.m_LastContinuityCounter + 1) % 16)
    (hAF : H.hasAdaptationField = true)
    (ha : 4 + AF.getAdaptationFieldLength + 1 ≤ 188) :
    ∃ s, A.AbsorbPacket P H AF = some (eResult.AssemblingFinished, s) ∧
      s.m_Buffer = A.m_Buffer ++ P.drop (4 + AF.getAdaptationFieldLength + 1) ∧
      s.m_LastContinuityCounter = (H.getCC : Int) ∧ s.m_Started = false ∧
      s.m_PID = A.m_PID ∧
      s.file = if A.m_PID = 136 then A.file ++ [s.m_Buffer] else A.file := by
  have hc : H.getCC < 128 := by omega
  have hne : P.isEmpty = false := isEmpty_false_of_lt (n := 0) (by omega)
  have hoff : xTS.TS_HeaderLength + AF.getNumBytes = 4 + AF.getAdaptationFieldLength + 1 := rfl
  rw [AbsorbPacket_finish A P H AF hS hcc hst hAF, hoff,
    xBufferAppend_of_le A P _ hne (by omega)]
  simp only [Option.some_bind]
  by_cases h136 : A.m_PID = 136
  · simp only [h136, if_true]
    exact ⟨_, rfl, rfl, toInt8_of_lt hc, rfl, rfl, rfl⟩
  · simp only [h136, if_false]
    exact ⟨_, rfl, rfl, toInt8_of_lt hc, rfl, rfl, rfl⟩

/-- Handing over a packet is `AbsorbPacket` on its prepared header and adaptation field. -/
theorem absorbPrepared_eq (A : xPES_Assembler) (P : List Nat) (H : xTS_PacketHeader)
    (AF : xTS_AdaptationField) (hH : prepareHeader default P = some H)
    (hAF : prepareAdaptationField default P H = some AF) :
    absorbPrepared A P = A.AbsorbPacket P H AF := by
  simp [absorbPrepared, hH, hAF]

/-- A run of continuation packets with consecutive counters, absorbed in the middle of a
unit: one `AssemblingContinue` each, and 184 bytes each appended to the buffer. -/
theorem absorbAll_continuations (mids : List (List Nat)) :
    ∀ (A : xPES_Assembler) (c : Nat) (rest : List (List Nat)),
      A.m_Started = true → A.m_LastContinuityCounter = ((c % 16 : Nat) : Int) →
      (∀ M ∈ mids, M.length = 188) →
      (∀ i M, mids[i]? = some M → ∃ H, prepareHeader default M = some H ∧
        H.isPayloadStart = false ∧ H.hasAdaptationField = false ∧
        H.getCC = (c + 1 + i) % 16) →
      ∃ A2 : xPES_Assembler, A2.m_Started = true ∧
        A2.m_LastContinuityCounter = (((c + mids.length) % 16 : Nat) : Int) ∧
        A2.m_Buffer = A.m_Buffer ++ (mids.map (List.drop 4)).flatten ∧
        A2.m_PID = A.m_PID ∧ A2.file = A.file ∧
        absorbAll A (mids ++ rest) =
          (absorbAll A2 rest).bind fun r =>
            some (List.replicate mids.length eResult.AssemblingContinue ++ r.1, r.2) := by
  induction mids with
  | nil =>
    intro A c rest hst hl _ _
    exact ⟨A, hst, by simpa using hl, by simp, rfl, rfl, by simp⟩
  | cons M mids ih =>
    intro A c rest hst hl hlen hcc
    obtain ⟨H, hH, hS, hAF, hc⟩ := hcc 0 M (by simp)
    have hM : M.length = 188 := hlen M (by simp)
    obtain ⟨hP, _⟩ := prepareAdaptationField_absent default M H hAF
    have hcc1 : (H.getCC : Int) = (A.m_LastContinuityCounter + 1) % 16 := by
      rw [hl, hc]; omega
    have hne : M.isEmpty = false := isEmpty_false_of_lt (n := 0) (by omega)
    have hstep : absorbPrepared A M = some (eResult.AssemblingContinue,
        { A with
          m_Buffer := A.m_Buffer ++ M.drop 4
          m_BufferSize := toUInt32 (A.m_BufferSize + (M.length - 4))
          m_LastContinuityCounter := toInt8 H.getCC }) := by
      rw [absorbPrepared_eq A M H _ hH hP, AbsorbPacket_continue A M H _ hS hcc1 hst hAF,
        show ((xTS.TS_HeaderLength : Nat) : Int) = ((4 : Nat) : Int) from rfl,
        xBufferAppend_of_le A M 4 hne (by omega)]
      rfl
    obtain ⟨A2, h1, h2, h3, h4, h5, h6⟩ := ih
      { A with
          m_Buffer := A.m_Buffer ++ M.drop 4
          m_BufferSize := toUInt32 (A.m_BufferSize + (M.length - 4))
          m_LastContinuityCounter := toInt8 H.getCC } (c + 1) rest hst
      (by
        show toInt8 H.getCC = _
        rw [toInt8_of_lt (by omega), hc])
      (fun M2 hM2 => hlen M2 (by simp [hM2]))
      (fun i M2 hi => by
        obtain ⟨H2, g1, g2, g3, g4⟩ := hcc (i + 1) M2 (by simpa using hi)
        exact ⟨H2, g1, g2, g3, by rw [g4]; congr 1; omega⟩)
    refine ⟨A2, h1, ?_, ?_, h4, h5, ?_⟩
    · rw [h2]; congr 2; simp; omega
    · rw [h3]; simp
    · have hun : absorbAll A (M :: mids ++ rest) =
          (absorbPrepared A M).bind fun r =>
            (absorbAll r.2 (mids ++ rest)).bind fun rs => some (r.1 :: rs.1, rs.2) := rfl
      rw [hun, hstep, Option.some_bind, h6]
      cases absorbAll A2 rest <;> simp [List.replicate_succ]

/-- For a packet that passes the gate of `main` (sync byte `'G'`, PID 136), one iteration of
the loop hands the packet over as `absorbPrepared` does. -/
theorem mainIteration_eq_absorbPrepared (st : LoopState) (P : List Nat) (H : xTS_PacketHeader)
    (hH : prepareHeader default P = some H) (hG : H.getSyncByte = 'G'.toNat)
    (hpid : H.getPID = 136) :
    (mainIteration st P).map (fun r => (r.1, r.2.PES_Assembler)) =
      (absorbPrepared st.PES_Assembler P).map (fun r => (some r.1, r.2)) := by
  have h1 : prepareHeader st.TS_PacketHeader P = some H := hH
  have h2 : prepareAdaptationField st.TS_PacketAdaptationField P H =
      prepareAdaptationField default P H := rfl
  simp only [mainIteration, absorbPrepared, h1, hH, h2, hG, hpid, and_self, if_true,
    Option.bind_eq_bind, Option.some_bind]
  cases prepareAdaptationField default P H with
  | none => rfl
  | some af =>
    simp only [Option.some_bind]
    cases st.PES_Assembler.AbsorbPacket P H af <;> rfl

/-- The header object that `xPES_PacketHeader::Parse` leaves behind when all the bytes it reads
are there, written out field by field. -/
theorem PES_Parse_eq (self : xPES_PacketHeader) (Data : List Nat) (Offset : Nat)
    (h9 : Offset + 9 ≤ Data.length)
    (h14 : byteFrom Data Offset 7 >>> 6 = 1 ∨ byteFrom Data Offset 7 >>> 6 = 2 →
      Offset + 14 ≤ Data.length)
    (h19 : byteFrom Data Offset 7 >>> 6 = 3 → Offset + 19 ≤ Data.length) :
    self.Parse Data (Offset : Int) = some (9 + (byteFrom Data Offset 8 : Int),
      { m_HeaderLength := 9 + (byteFrom Data Offset 8 : Int)
        m_PacketStartCodePrefix :=
          (byteFrom Data Offset 0 <<< 16) ||| (byteFrom Data Offset 1 <<< 8) |||
            byteFrom Data Offset 2
        m_StreamId := byteFrom Data Offset 3
        m_PacketLength := (byteFrom Data Offset 4 <<< 8) ||| byteFrom Data Offset 5
        m_PTS_DTS := byteFrom Data Offset 7 >>> 6
        m_PresentationTimeStamp :=
          if byteFrom Data Offset 7 >>> 6 = 2 ∨ byteFrom Data Offset 7 >>> 6 = 3 then
            xPES_PacketHeader.unpackTimeStamp (byteFrom Data Offset 9) (byteFrom Data Offset 10)
              (byteFrom Data Offset 11) (byteFrom Data Offset 12) (byteFrom Data Offset 13)
          else self.m_PresentationTimeStamp
        m_DecodeTimeStamp :=
          if byteFrom Data Offset 7 >>> 6 = 1 then
            xPES_PacketHeader.unpackTimeStamp (byteFrom Data Offset 9) (byteFrom Data Offset 10)
              (byteFrom Data Offset 11) (byteFrom Data Offset 12) (byteFrom Data Offset 13)
          else if byteFrom Data Offset 7 >>> 6 = 3 then
            xPES_PacketHeader.unpackTimeStamp (byteFrom Data Offset 14)
              (byteFrom Data Offset 15) (byteFrom Data Offset 16) (byteFrom Data Offset 17)
              (byteFrom Data Offset 18)
          else self.m_DecodeTimeStamp
        m_ESCR_flag := (byteFrom Data Offset 7 &&& 0x20) != 0
        m_ES_rate_flag := (byteFrom Data Offset 7 &&& 0x10) != 0
        m_DSM_trick_mode_flag := (byteFrom Data Offset 7 &&& 0x08) != 0
        m_additional_copy_info_flag := (byteFrom Data Offset 7 &&& 0x04) != 0
        m_PES_CRC_flag := (byteFrom Data Offset 7 &&& 0x02) != 0
        m_PES_extension_flag := (byteFrom Data Offset 7 &&& 0x01) != 0 }) := by
  have hne : Data.isEmpty = false := isEmpty_false_of_lt (n := Offset) (by omega)
  have hoff : ¬ ((Offset : Int) < 0 ∨ (Data.length : Int) < (Offset : Int)) := by omega
  have r : ∀ i, i < 9 → byteAt (Data.drop Offset) i = some (byteFrom Data Offset i) :=
    fun i hi => byteAt_drop Data Offset i (by omega)
  unfold xPES_PacketHeader.Parse
  simp only [hne, hoff, Bool.false_eq_true, if_false, Int.toNat_ofNat,
    r 0 (by omega), r 1 (by omega), r 2 (by omega), r 3 (by omega), r 4 (by omega),
    r 5 (by omega), r 7 (by omega), r 8 (by omega)]
  by_cases c2 : byteFrom Data Offset 7 >>> 6 = 2
  · have hl := h14 (Or.inr c2)
    have r2 : ∀ i, i < 14 → byteAt (Data.drop Offset) i = some (byteFrom Data Offset i) :=
      fun i hi => byteAt_drop Data Offset i (by omega)
    simp [c2, r2 9 (by omega), r2 10 (by omega), r2 11 (by omega), r2 12 (by omega),
      r2 13 (by omega)]
  · by_cases c1 : byteFrom Data Offset 7 >>> 6 = 1
    · have hl := h14 (Or.inl c1)
      have r2 : ∀ i, i < 14 → byteAt (Data.drop Offset) i = some (byteFrom Data Offset i) :=
        fun i hi => byteAt_drop Data Offset i (by omega)
      simp [c1, r2 9 (by omega), r2 10 (by omega), r2 11 (by omega), r2 12 (by omega),
        r2 13 (by omega)]
    · by_cases c3 : byteFrom Data Offset 7 >>> 6 = 3
      · have hl := h19 c3
        have r2 : ∀ i, i < 19 → byteAt (Data.drop Offset) i = some (byteFrom Data Offset i) :=
          fun i hi => byteAt_drop Data Offset i (by omega)
        simp [c3, r2 9 (by omega), r2 10 (by omega), r2 11 (by omega), r2 12 (by omega),
          r2 13 (by omega), r2 14 (by omega), r2 15 (by omega), r2 16 (by omega),
          r2 17 (by omega), r2 18 (by omega)]
      · simp [c1, c2, c3]

/-- Reduction modulo `2 ^ 32` goes through a bitwise or. -/
theorem or_mod_two_pow_32 (a b : Nat) : (a ||| b) % 2 ^ 32 = (a % 2 ^ 32) ||| (b % 2 ^ 32) := by
  apply Nat.eq_of_testBit_eq
  intro i
  simp only [Nat.testBit_mod_two_pow, Nat.testBit_or]
  cases decide (i < 32) <;> simp

/-- An intermediate conversion to `uint32_t` under a bitwise or disappears in the next one. -/
theorem toUInt32_or_left (a b : Nat) : toUInt32 (toUInt32 a ||| b) = toUInt32 (a ||| b) := by
  unfold toUInt32
  rw [or_mod_two_pow_32, Nat.mod_mod, ← or_mod_two_pow_32]

/-- The object that `xTS_AdaptationField::Parse` leaves behind when the bytes it reads are
there, written out field by field. -/
theorem AF_Parse_eq (self : xTS_AdaptationField) (P : List Nat) (c : Nat)
    (h6 : 6 ≤ P.length) (h11 : (byteFrom P 0 5 &&& 0x10) ≠ 0 → 11 ≤ P.length) :
    self.Parse P c = some ((byteFrom P 0 4 : Int),
      { m_AdaptationFieldControl := c
        m_AdaptationFieldLength := byteFrom P 0 4
        m_RA := (byteFrom P 0 5 &&& 0x80) != 0
        m_DC := (byteFrom P 0 5 &&& 0x40) != 0
        m_SP := (byteFrom P 0 5 &&& 0x20) != 0
        m_PR := (byteFrom P 0 5 &&& 0x10) != 0
        m_OR := (byteFrom P 0 5 &&& 0x08) != 0
        m_SF := (byteFrom P 0 5 &&& 0x04) != 0
        m_TP := (byteFrom P 0 5 &&& 0x02) != 0
        m_EX := (byteFrom P 0 5 &&& 0x01) != 0
        m_PCR :=
          if (byteFrom P 0 5 &&& 0x10) ≠ 0 then
            toUInt32 (toUInt32 (self.m_PCR ||| pcrBase P) * 300)
          else self.m_PCR }) := by
  have hne : P.isEmpty = false := isEmpty_false_of_lt (n := 0) (by omega)
  unfold xTS_AdaptationField.Parse
  simp only [hne, Bool.false_eq_true, if_false, byteAt_eq P 4 (by omega),
    byteAt_eq P 5 (by omega)]
  by_cases hpr : (byteFrom P 0 5 &&& 0x10) ≠ 0
  · have hl := h11 hpr
    have hb : ((byteFrom P 0 5 &&& 0x10) != 0) = true := by simpa using hpr
    simp only [hb, beq_self_eq_true, if_true, byteAt_eq P 6 (by omega), byteAt_eq P 7 (by omega),
      byteAt_eq P 8 (by omega), byteAt_eq P 9 (by omega), byteAt_eq P 10 (by omega), hpr,
      ne_eq, not_false_eq_true, toUInt32_or_left, xTS.BaseToExtendedClockMultiplier, pcrBase,
      Nat.or_assoc]
  · have hb : ((byteFrom P 0 5 &&& 0x10) != 0) = false := by simpa using hpr
    simp [hb, hpr]

/-- Reading at or beyond the end of a buffer. -/
theorem byteAt_none (v : List Nat) (i : Nat) (h : v.length ≤ i) : byteAt v i = none := by
  simp only [byteAt]
  exact List.getElem?_eq_none h

/-- With fewer than nine bytes from `Offset` to the end of a non-empty buffer,
`xPES_PacketHeader::Parse` reads outside the buffer. -/
theorem PES_Parse_short (self : xPES_PacketHeader) (Data : List Nat) (Offset : Int)
    (h0 : 0 < Data.length) (h : (Data.length : Int) - Offset < 9) :
    self.Parse Data Offset = none := by
  have hne : Data.isEmpty = false := isEmpty_false_of_lt h0
  unfold xPES_PacketHeader.Parse
  simp only [hne, Bool.false_eq_true, if_false]
  split
  · rfl
  · rename_i hoff
    have h8 : byteAt (Data.drop Offset.toNat) 8 = none := by
      apply byteAt_none
      rw [List.length_drop]
      omega
    simp only [h8]
    cases byteAt (List.drop Offset.toNat Data) 0 <;> try rfl
    cases byteAt (List.drop Offset.toNat Data) 1 <;> try rfl
    cases byteAt (List.drop Offset.toNat Data) 2 <;> try rfl
    cases byteAt (List.drop Offset.toNat Data) 3 <;> try rfl
    cases byteAt (List.drop Offset.toNat Data) 4 <;> try rfl
    cases byteAt (List.drop Offset.toNat Data) 5 <;> try rfl
    cases byteAt (List.drop Offset.toNat Data) 7 <;> rfl

/-- On a non-empty buffer `xPES_PacketHeader::Parse` never returns `NOT_VALID`: what it
returns is a header length of at least 9. -/
theorem PES_Parse_ret_ge (self : xPES_PacketHeader) (Data : List Nat) (Offset : Int)
    (r : Int × xPES_PacketHeader) (h0 : 0 < Data.length) (h : self.Parse Data Offset = some r) :
    9 ≤ r.1 := by
  have hne : Data.isEmpty = false := isEmpty_false_of_lt h0
  unfold xPES_PacketHeader.Parse at h
  simp only [hne, Bool.false_eq_true, if_false] at h
  split at h
  · cases h
  · repeat' split at h
    all_goals (cases h <;> (dsimp only; omega))

/-- On bytes the unpacking expression of the code is the expression over unbounded integers
reduced modulo `2 ^ 32`. -/
theorem unpackTimeStamp_eq_mod (b9 b10 b11 b12 b13 : Nat) (h10 : b10 < 256)
    (h12 : b12 < 256) :
    xPES_PacketHeader.unpackTimeStamp b9 b10 b11 b12 b13 =
      ptsFormula b9 b10 b11 b12 b13 % 2 ^ 32 := by
  have a9 : b9 &&& 0x0E ≤ 0x0E := Nat.and_le_right
  have a11 : b11 &&& 0xFE ≤ 0xFE := Nat.and_le_right
  have a13 : b13 &&& 0xFE ≤ 0xFE := Nat.and_le_right
  have e9 : (b9 &&& 0x0E) % 2 ^ 32 = b9 &&& 0x0E := Nat.mod_eq_of_lt (by omega)
  have e10 : b10 % 2 ^ 32 = b10 := Nat.mod_eq_of_lt (by omega)
  have e11 : (b11 &&& 0xFE) % 2 ^ 32 = b11 &&& 0xFE := Nat.mod_eq_of_lt (by omega)
  have e12 : b12 % 2 ^ 32 = b12 := Nat.mod_eq_of_lt (by omega)
  have e13 : (b13 &&& 0xFE) % 2 ^ 32 = b13 &&& 0xFE := Nat.mod_eq_of_lt (by omega)
  have s13 : ((b13 &&& 0xFE) >>> 1) % 2 ^ 32 = (b13 &&& 0xFE) >>> 1 := by
    rw [Nat.shiftRight_eq_div_pow]
    exact Nat.mod_eq_of_lt (by omega)
  unfold xPES_PacketHeader.unpackTimeStamp ptsFormula toUInt32
  rw [e9, e10, e11, e12, e13, or_mod_two_pow_32, or_mod_two_pow_32, or_mod_two_pow_32,
    or_mod_two_pow_32, s13]

/-- A start packet whose PES header, at the offset the code computes, lies within the
packet: the PES header object afterwards holds the start-code prefix read from the packet,
whatever it is. -/
theorem AbsorbPacket_start_within_prefix (A : xPES_Assembler) (P : List Nat)
    (H : xTS_PacketHeader) (AF : xTS_AdaptationField) (hS : H.isPayloadStart = true)
    (hw : pesHeaderWithin P (4 + AF.getNumBytes)) :
    ∃ s, A.AbsorbPacket P H AF = some (eResult.AssemblingStarted, s) ∧
      s.m_PESH.getPacketStartCodePrefix =
        ((byteFrom P (4 + AF.getNumBytes) 0 <<< 16) |||
          (byteFrom P (4 + AF.getNumBytes) 1 <<< 8) ||| byteFrom P (4 + AF.getNumBytes) 2) ∧
      s.m_PESH.getHeaderLength = 9 + (byteFrom P (4 + AF.getNumBytes) 8 : Int) := by
  obtain ⟨hfit, h14, h19⟩ := hw
  obtain ⟨s3, _, _, _, _, _, _, he⟩ := AbsorbPacket_start A P H AF hS
  obtain ⟨ph, hparse, hph⟩ :=
    PES_Parse_within s3.m_PESH P (4 + AF.getNumBytes) (by omega) h14 h19
  have hne : P.isEmpty = false := isEmpty_false_of_lt (n := 0) (by omega)
  have hnv : ¬ (9 + (byteFrom P (4 + AF.getNumBytes) 8 : Int) = NOT_VALID) := by
    unfold NOT_VALID; omega
  have hoff : ((xTS.TS_HeaderLength + AF.getNumBytes : Nat) : Int) +
      (9 + (byteFrom P (4 + AF.getNumBytes) 8 : Int)) =
      ((4 + AF.getNumBytes + 9 + byteFrom P (4 + AF.getNumBytes) 8 : Nat) : Int) := by
    unfold xTS.TS_HeaderLength; push_cast; ring
  have hparse2 : s3.m_PESH.Parse P ((xTS.TS_HeaderLength + AF.getNumBytes : Nat) : Int) =
      some (9 + (byteFrom P (4 + AF.getNumBytes) 8 : Int), ph) := hparse
  rw [he, hparse2]
  simp only [Option.some_bind, hnv, if_false, hoff]
  rw [xBufferAppend_of_le _ P _ hne (by omega)]
  simp only [Option.some_bind]
  exact ⟨_, rfl, hph.1, hph.2.2.2.2.2.2.2.2.2.2⟩

/-- A start packet that is not empty is never answered with `StreamPackedLost`. -/
theorem AbsorbPacket_start_not_lost (A : xPES_Assembler) (P : List Nat) (H : xTS_PacketHeader)
    (AF : xTS_AdaptationField) (hS : H.isPayloadStart = true) (h0 : 0 < P.length)
    (s : xPES_Assembler) : A.AbsorbPacket P H AF ≠ some (eResult.StreamPackedLost, s) := by
  intro h
  obtain ⟨s3, _, _, _, _, _, _, he⟩ := AbsorbPacket_start A P H AF hS
  rw [he, Option.bind_eq_some] at h
  obtain ⟨r, hr, h⟩ := h
  have h9 := PES_Parse_ret_ge _ _ _ r h0 hr
  have hnv : ¬ (r.1 = NOT_VALID) := by unfold NOT_VALID; omega
  rw [if_neg hnv, Option.bind_eq_some] at h
  obtain ⟨s5, _, h⟩ := h
  simp at h

/-- Every call of `AbsorbPacket` that returns `StreamPackedLost` leaves the assembler idle and
the file as it was. -/
theorem AbsorbPacket_lost_idle (A : xPES_Assembler) (P : List Nat) (H : xTS_PacketHeader)
    (AF : xTS_AdaptationField) (s : xPES_Assembler)
    (h : A.AbsorbPacket P H AF = some (eResult.StreamPackedLost, s)) :
    s.m_Started = false ∧ s.file = A.file := by
  cases hS : H.isPayloadStart
  · by_cases hcc : (H.getCC : Int) = (A.m_LastContinuityCounter + 1) % 16
    · cases hst : A.m_Started
      · rw [AbsorbPacket_idle A P H AF hS hcc hst] at h
        cases h
        exact ⟨rfl, rfl⟩
      · cases hAF : H.hasAdaptationField
        · rw [AbsorbPacket_continue A P H AF hS hcc hst hAF, Option.bind_eq_some] at h
          obtain ⟨a, _, h⟩ := h
          simp at h
        · rw [AbsorbPacket_finish A P H AF hS hcc hst hAF, Option.bind_eq_some] at h
          obtain ⟨a, _, h⟩ := h
          simp at h
    · rw [AbsorbPacket_mismatch A P H AF hS hcc] at h
      cases h
      exact ⟨rfl, rfl⟩
  · obtain ⟨s3, hf, _, _, _, _, _, he⟩ := AbsorbPacket_start A P H AF hS
    rw [he, Option.bind_eq_some] at h
    obtain ⟨r0, _, h⟩ := h
    split at h
    · cases h
      exact ⟨rfl, hf⟩
    · rw [Option.bind_eq_some] at h
      obtain ⟨s5, _, h⟩ := h
      simp at h

/-- On a non-empty buffer `xTS_AdaptationField::Parse` uses nothing of the object it is called
on but `m_PCR`. -/
theorem AF_Parse_prior (s1 s2 : xTS_AdaptationField) (P : List Nat) (c : Nat)
    (h0 : 0 < P.length) :
    (s1.Parse P c).map (fun r => (r.1, { r.2 with m_PCR := 0 })) =
      (s2.Parse P c).map (fun r => (r.1, { r.2 with m_PCR := 0 })) ∧
    (s1.m_PCR = s2.m_PCR → s1.Parse P c = s2.Parse P c) := by
  have hne : P.isEmpty = false := isEmpty_false_of_lt h0
  unfold xTS_AdaptationField.Parse
  simp only [hne, Bool.false_eq_true, if_false]
  cases byteAt P 4 with
  | none => exact ⟨rfl, fun _ => rfl⟩
  | some b4 =>
    cases byteAt P 5 with
    | none => exact ⟨rfl, fun _ => rfl⟩
    | some b5 =>
      dsimp only
      cases hpr : ((b5 &&& 0x10) != 0)
      · refine ⟨by simp, fun h => by simp [h]⟩
      · simp only [beq_self_eq_true, if_true]
        cases byteAt P 6 with
        | none => exact ⟨rfl, fun _ => rfl⟩
        | some b6 =>
          cases byteAt P 7 with
          | none => exact ⟨rfl, fun _ => rfl⟩
          | some b7 =>
            cases byteAt P 8 with
            | none => exact ⟨rfl, fun _ => rfl⟩
            | some b8 =>
              cases byteAt P 9 with
              | none => exact ⟨rfl, fun _ => rfl⟩
              | some b9 =>
                cases byteAt P 10 with
                | none => exact ⟨rfl, fun _ => rfl⟩
                | some b10 => exact ⟨rfl, fun h => by simp only [h]⟩

/-- What `xBufferAppend` does when it returns: the buffer grows by a tail of the packet, and a
recorded size that was the buffer length modulo `2 ^ 32` is so again. -/
theorem xBufferAppend_size (A s : xPES_Assembler) (Data : List Nat) (o : Int)
    (h : A.xBufferAppend Data o = some s) :
    (∃ n, s.m_Buffer = A.m_Buffer ++ Data.drop n) ∧
    (A.m_BufferSize = A.m_Buffer.length % 2 ^ 32 →
      s.m_BufferSize = s.m_Buffer.length % 2 ^ 32) := by
  unfold xPES_Assembler.xBufferAppend at h
  split at h
  · rename_i he
    cases h
    have : Data = [] := by simpa using he
    exact ⟨⟨0, by simp [this]⟩, fun hi => hi⟩
  · split at h
    · cases h
    · cases h
      refine ⟨⟨o.toNat, rfl⟩, fun hi => ?_⟩
      simp only [toUInt32, hi, List.length_append, List.length_drop]
      omega

/-- Every call of `AbsorbPacket` that returns keeps the recorded size equal to the buffer
length modulo `2 ^ 32`. -/
theorem AbsorbPacket_size (A : xPES_Assembler) (P : List Nat) (H : xTS_PacketHeader)
    (AF : xTS_AdaptationField) (r : eResult) (s : xPES_Assembler)
    (h : A.AbsorbPacket P H AF = some (r, s))
    (hi : A.m_BufferSize = A.m_Buffer.length % 2 ^ 32) :
    s.m_BufferSize = s.m_Buffer.length % 2 ^ 32 := by
  cases hS : H.isPayloadStart
  · by_cases hcc : (H.getCC : Int) = (A.m_LastContinuityCounter + 1) % 16
    · cases hst : A.m_Started
      · rw [AbsorbPacket_idle A P H AF hS hcc hst] at h
        cases h
        exact hi
      · cases hAF : H.hasAdaptationField
        · rw [AbsorbPacket_continue A P H AF hS hcc hst hAF, Option.bind_eq_some] at h
          obtain ⟨a, ha, h⟩ := h
          cases h
          exact (xBufferAppend_size A a P _ ha).2 hi
        · rw [AbsorbPacket_finish A P H AF hS hcc hst hAF, Option.bind_eq_some] at h
          obtain ⟨a, ha, h⟩ := h
          have h2 := (xBufferAppend_size A a P _ ha).2 hi
          cases h
          split <;> exact h2
    · rw [AbsorbPacket_mismatch A P H AF hS hcc] at h
      cases h
      exact hi
  · obtain ⟨s3, _, hb, hz, _, _, _, he⟩ := AbsorbPacket_start A P H AF hS
    rw [he, Option.bind_eq_some] at h
    obtain ⟨r0, _, h⟩ := h
    split at h
    · cases h
      show s3.m_BufferSize = s3.m_Buffer.length % 2 ^ 32
      rw [hb, hz]; rfl
    · rw [Option.bind_eq_some] at h
      obtain ⟨s5, h5, h⟩ := h
      have h2 := (xBufferAppend_size _ s5 P _ h5).2 (by
        show s3.m_BufferSize = s3.m_Buffer.length % 2 ^ 32
        rw [hb, hz]; rfl)
      cases h
      exact h2

/-- After a start packet the buffer holds nothing but a tail of that packet. -/
theorem AbsorbPacket_start_buffer (A : xPES_Assembler) (P : List Nat) (H : xTS_PacketHeader)
    (AF : xTS_AdaptationField) (r : eResult) (s : xPES_Assembler)
    (hS : H.isPayloadStart = true) (h : A.AbsorbPacket P H AF = some (r, s)) :
    ∃ n, s.m_Buffer = P.drop n := by
  obtain ⟨s3, _, hb, _, _, _, _, he⟩ := AbsorbPacket_start A P H AF hS
  rw [he, Option.bind_eq_some] at h
  obtain ⟨r0, _, h⟩ := h
  split at h
  · cases h
    exact ⟨P.length, by simpa using hb⟩
  · rw [Option.bind_eq_some] at h
    obtain ⟨s5, h5, h⟩ := h
    obtain ⟨n, hn⟩ := (xBufferAppend_size _ s5 P _ h5).1
    cases h
    exact ⟨n, by simpa [hb] using hn⟩

/-- The recorded size is the buffer length modulo `2 ^ 32` after any sequence of calls that
starts from a state where it is. -/
theorem absorbCalls_size (calls : List (List Nat × xTS_PacketHeader × xTS_AdaptationField)) :
    ∀ (A s : xPES_Assembler), absorbCalls A calls = some s →
      A.m_BufferSize = A.m_Buffer.length % 2 ^ 32 →
      s.m_BufferSize = s.m_Buffer.length % 2 ^ 32 := by
  induction calls with
  | nil =>
    intro A s h hi
    cases h
    exact hi
  | cons c rest ih =>
    intro A s h hi
    have hun : absorbCalls A (c :: rest) =
        (A.AbsorbPacket c.1 c.2.1 c.2.2).bind fun r => absorbCalls r.2 rest := rfl
    rw [hun, Option.bind_eq_some] at h
    obtain ⟨r, hr, h⟩ := h
    exact ih r.2 s h (AbsorbPacket_size A c.1 c.2.1 c.2.2 r.1 r.2 hr hi)

/-- A packet handed over as `main` does is one call of `AbsorbPacket`. -/
theorem absorbPrepared_call (A : xPES_Assembler) (P : List Nat) (r : eResult × xPES_Assembler)
    (h : absorbPrepared A P = some r) :
    ∃ H AF, A.AbsorbPacket P H AF = some r := by
  unfold absorbPrepared at h
  simp only [Option.bind_eq_bind, Option.bind_eq_some] at h
  obtain ⟨H, _, AF, _, h⟩ := h
  exact ⟨H, AF, h⟩

/-- The recorded size is the buffer length modulo `2 ^ 32` after any sequence of packets
handed over from a state where it is. -/
theorem absorbAll_size (Ps : List (List Nat)) :
    ∀ (A : xPES_Assembler) (r : List eResult × xPES_Assembler), absorbAll A Ps = some r →
      A.m_BufferSize = A.m_Buffer.length % 2 ^ 32 →
      r.2.m_BufferSize = r.2.m_Buffer.length % 2 ^ 32 := by
  induction Ps with
  | nil =>
    intro A r h hi
    cases h
    exact hi
  | cons P rest ih =>
    intro A r h hi
    have hun : absorbAll A (P :: rest) =
        (absorbPrepared A P).bind fun r =>
          (absorbAll r.2 rest).bind fun rs => some (r.1 :: rs.1, rs.2) := rfl
    rw [hun, Option.bind_eq_some] at h
    obtain ⟨r1, hr1, h⟩ := h
    rw [Option.bind_eq_some] at h
    obtain ⟨rs, hrs, h⟩ := h
    cases h
    obtain ⟨H, AF, hc⟩ := absorbPrepared_call A P r1 hr1
    exact ih r1.2 rs hrs (AbsorbPacket_size A P H AF r1.1 r1.2 hc hi)

/-- Packets of 188 bytes contribute 184 bytes each after their header. -/
theorem length_flatten_drop_4 (l : List (List Nat)) (h : ∀ M ∈ l, M.length = 188) :
    ((l.map (List.drop 4)).flatten).length = 184 * l.length := by
  induction l with
  | nil => rfl
  | cons M l ih =>
    have h1 := h M (by simp)
    have h2 := ih (fun M2 hM2 => h M2 (by simp [hM2]))
    simp only [List.map_cons, List.flatten_cons, List.length_append, List.length_drop,
      List.length_cons, h1, h2]
    omega

/-- The header `main` prepares for a continuation packet of PID 136. -/
theorem prepareHeader_continuationPacket : ∀ cc, cc < 16 →
    prepareHeader default (continuationPacket 136 cc 0xBB) = some (continuationHeader cc) := by
  decide

/-- A start packet followed by `k` continuation packets with consecutive counters: all are
taken, the buffer holds `168 + 184 * k` bytes and the recorded size is that number modulo
`2 ^ 32`. -/
theorem longUnit_absorbed (k : Nat) :
    ∃ s, absorbAll ((default : xPES_Assembler).Init 136) (longUnit k) =
        some (eResult.AssemblingStarted :: List.replicate k eResult.AssemblingContinue, s) ∧
      s.m_Buffer.length = 168 + 184 * k ∧ s.m_BufferSize = (168 + 184 * k) % 2 ^ 32 := by
  have h1 : (absorbPrepared ((default : xPES_Assembler).Init 136) (startPacket 136)).map
      (fun r => (r.1, r.2.m_Started, r.2.m_LastContinuityCounter, r.2.m_Buffer.length)) =
      some (eResult.AssemblingStarted, true, 0, 168) := by decide
  rw [Option.map_eq_some'] at h1
  obtain ⟨r1, hr1, he⟩ := h1
  obtain ⟨r, s1⟩ := r1
  simp only [Prod.mk.injEq] at he
  obtain ⟨rfl, hst, hl, hb⟩ := he
  have hlen : ∀ M ∈ (List.range k).map (fun i => continuationPacket 136 ((1 + i) % 16) 0xBB),
      M.length = 188 := by
    intro M hM
    simp only [List.mem_map] at hM
    obtain ⟨i, _, rfl⟩ := hM
    simp [continuationPacket]
  obtain ⟨s2, _, _, hb2, _, _, hrun⟩ :=
    absorbAll_continuations
      ((List.range k).map (fun i => continuationPacket 136 ((1 + i) % 16) 0xBB)) s1 0 [] hst
      (by rw [hl]; rfl) hlen
      (fun i M hi => by
        simp only [List.getElem?_map, List.getElem?_range, Option.map_eq_some'] at hi
        obtain ⟨j, hj, rfl⟩ := hi
        have hji : j = i := by
          by_cases hik : i < k
          · simpa [List.getElem?_range hik] using hj.symm
          · simp [List.getElem?_eq_none (show (List.range k).length ≤ i by simp; omega)] at hj
        subst hji
        refine ⟨continuationHeader ((1 + j) % 16),
          prepareHeader_continuationPacket _ (Nat.mod_lt _ (by decide)), rfl, rfl, ?_⟩
        show (1 + j) % 16 = (0 + 1 + j) % 16
        rw [Nat.zero_add])
  have hall : absorbAll ((default : xPES_Assembler).Init 136) (longUnit k) =
      some (eResult.AssemblingStarted :: List.replicate k eResult.AssemblingContinue, s2) := by
    have hun : absorbAll ((default : xPES_Assembler).Init 136) (longUnit k) =
        (absorbPrepared ((default : xPES_Assembler).Init 136) (startPacket 136)).bind fun r =>
          (absorbAll r.2
            ((List.range k).map (fun i => continuationPacket 136 ((1 + i) % 16) 0xBB))).bind
            fun rs => some (r.1 :: rs.1, rs.2) := rfl
    rw [List.append_nil] at hrun
    rw [hun, hr1, Option.some_bind, hrun]
    simp [absorbAll]
  have hlen2 : s2.m_Buffer.length = 168 + 184 * k := by
    rw [hb2, List.length_append, hb, length_flatten_drop_4 _ hlen]
    simp
  refine ⟨s2, hall, hlen2, ?_⟩
  have := absorbAll_size (longUnit k) _ _ hall rfl
  rw [this, hlen2]

/-- A completion packet whose adaptation-field size points beyond the packet: the copy that
`AbsorbPacket` asks for begins outside the packet. -/
theorem AbsorbPacket_finish_outside (A : xPES_Assembler) (P : List Nat) (H : xTS_PacketHeader)
    (AF : xTS_AdaptationField) (hS : H.isPayloadStart = false)
    (hcc : (H.getCC : Int) = (A.m_LastContinuityCounter + 1) % 16)
    (hst : A.m_Started = true) (hAF : H.hasAdaptationField = true) (h0 : 0 < P.length)
    (hout : P.length < 4 + AF.getNumBytes) :
    A.AbsorbPacket P H AF = none := by
  have hne : P.isEmpty = false := isEmpty_false_of_lt h0
  rw [AbsorbPacket_finish A P H AF hS hcc hst hAF]
  have hx : A.xBufferAppend P ((xTS.TS_HeaderLength + AF.getNumBytes : Nat) : Int) = none := by
    unfold xPES_Assembler.xBufferAppend
    have h2 : (P.length : Int) < ((xTS.TS_HeaderLength + AF.getNumBytes : Nat) : Int) := by
      have : xTS.TS_HeaderLength = 4 := rfl
      omega
    rw [if_neg (by simp [hne]), if_pos (Or.inr h2)]
  rw [hx]
  rfl

/-! ## The claims -/

/-- C1, at a start packet without adaptation field: the caller passes the `Reset` adaptation
field, `getNumBytes` is 1, and `AbsorbPacket` parses the PES header at offset 5 instead of 4.
On `startPacketNoAF` the call reports `AssemblingStarted` with start-code prefix `0x0001C0`,
stream id 0 and the buffer holding the packet from byte 14 on, while the PES header at
offset 4 has prefix `0x000001`, stream id `0xC0` and length 9, so that the payload begins at
byte 13. -/
theorem C1_start_without_adaptation_field_parsed_at_offset_5 :
    (prepareHeader default startPacketNoAF).map
        (fun h => (h.isPayloadStart, h.hasAdaptationField)) = some (true, false) ∧
    ((prepareHeader default startPacketNoAF).bind
        (fun h => prepareAdaptationField default startPacketNoAF h)).map
        (fun a => a.getNumBytes) = some 1 ∧
    (absorbPrepared ((default : xPES_Assembler).Init 136) startPacketNoAF).map
        (fun r => (r.1, r.2.m_PESH.m_PacketStartCodePrefix, r.2.m_PESH.m_StreamId,
          r.2.m_PESH.m_HeaderLength, r.2.m_Buffer)) =
      some (eResult.AssemblingStarted, 0x0001C0, 0x00, 9, startPacketNoAF.drop 14) ∧
    ((default : xPES_PacketHeader).Reset.Parse startPacketNoAF 4).map
        (fun r => (r.1, r.2.m_PacketStartCodePrefix, r.2.m_StreamId)) =
      some (9, 0x000001, 0xC0) ∧
    startPacketNoAF.drop 14 ≠ startPacketNoAF.drop (4 + 0 + 9) := by
  decide

/-- C2, continuity check: in an assembler that is assembling, a packet without start bit and
with a four-bit continuity counter `c` is answered with `StreamPackedLost` exactly when
`c` differs from `(L + 1) mod 16`, for every recorded counter `L`. On a mismatch the assembler
is idle afterwards, records `c`, and the file is as before. Counter 0 after 15 is not
reported lost; counter 2 after 15 is. -/
theorem C2_continuity_check (A : xPES_Assembler) (P : List Nat) (H : xTS_PacketHeader)
    (AF : xTS_AdaptationField) (hst : A.m_Started = true)
    (hS : H.isPayloadStart = false) (hc : H.getCC ≤ 15) :
    ((∃ s, A.AbsorbPacket P H AF = some (eResult.StreamPackedLost, s)) ↔
      (H.getCC : Int) ≠ (A.m_LastContinuityCounter + 1) % 16) ∧
    ((H.getCC : Int) ≠ (A.m_LastContinuityCounter + 1) % 16 →
      ∃ s, A.AbsorbPacket P H AF = some (eResult.StreamPackedLost, s) ∧
        s.m_Started = false ∧ s.m_LastContinuityCounter = (H.getCC : Int) ∧ s.file = A.file) ∧
    (A.m_LastContinuityCounter = 15 → H.getCC = 0 →
      ∀ s, A.AbsorbPacket P H AF ≠ some (eResult.StreamPackedLost, s)) ∧
    (A.m_LastContinuityCounter = 15 → H.getCC = 2 →
      ∃ s, A.AbsorbPacket P H AF = some (eResult.StreamPackedLost, s)) := by
  have hi8 : toInt8 H.getCC = (H.getCC : Int) := toInt8_of_lt (by omega)
  have key : ∀ s, A.AbsorbPacket P H AF = some (eResult.StreamPackedLost, s) →
      (H.getCC : Int) ≠ (A.m_LastContinuityCounter + 1) % 16 := by
    intro s hs heq
    cases hAF : H.hasAdaptationField
    · rw [AbsorbPacket_continue A P H AF hS heq hst hAF, Option.bind_eq_some] at hs
      obtain ⟨a, _, ha⟩ := hs
      simp at ha
    · rw [AbsorbPacket_finish A P H AF hS heq hst hAF, Option.bind_eq_some] at hs
      obtain ⟨a, _, ha⟩ := hs
      simp at ha
  have lost : (H.getCC : Int) ≠ (A.m_LastContinuityCounter + 1) % 16 →
      ∃ s, A.AbsorbPacket P H AF = some (eResult.StreamPackedLost, s) ∧
        s.m_Started = false ∧ s.m_LastContinuityCounter = (H.getCC : Int) ∧ s.file = A.file := by
    intro hne
    exact ⟨_, AbsorbPacket_mismatch A P H AF hS hne, rfl, hi8, rfl⟩
  refine ⟨⟨fun ⟨s, hs⟩ => key s hs, fun hne => ?_⟩, lost, ?_, ?_⟩
  · obtain ⟨s, hs, _⟩ := lost hne
    exact ⟨s, hs⟩
  · intro h15 h0 s hs
    apply key s hs
    rw [h15, h0]; decide
  · intro h15 h2
    obtain ⟨s, hs, _⟩ := lost (by rw [h15, h2]; decide)
    exact ⟨s, hs⟩
/-- Witness of C2: after counter 15, the packet with counter 2 is reported lost and the
packet with counter 0 is taken as a continuation. -/
theorem C2_continuity_check_witness :
    (∃ s, (assembling 136 15).AbsorbPacket (continuationPacket 136 2 0xBB) (continuationHeader 2)
        (default : xTS_AdaptationField).Reset = some (eResult.StreamPackedLost, s) ∧
      s.m_Started = false ∧ s.m_LastContinuityCounter = 2 ∧ s.file = []) ∧
    ((assembling 136 15).AbsorbPacket (continuationPacket 136 0 0xBB) (continuationHeader 0)
        (default : xTS_AdaptationField).Reset).map Prod.fst =
      some eResult.AssemblingContinue :=
  ⟨(C2_continuity_check (assembling 136 15) (continuationPacket 136 2 0xBB)
      (continuationHeader 2) (default : xTS_AdaptationField).Reset (by decide) (by decide)
      (by decide)).2.1 (by decide), by decide⟩

/-- C3, continuation: in an assembler that is assembling with recorded counter `L` and buffer
`B`, a 188-byte packet without start bit, with counter `(L + 1) mod 16` and adaptation-field
control neither 2 nor 3 is answered with `AssemblingContinue`; afterwards the buffer is `B`
followed by the 184 bytes from byte 4 on, the recorded counter is the packet's, the
assembler is still assembling and the file is as before. -/
theorem C3_continuation (A : xPES_Assembler) (P : List Nat) (H : xTS_PacketHeader)
    (AF : xTS_AdaptationField) (hlen : P.length = 188) (hst : A.m_Started = true)
    (hS : H.isPayloadStart = false)
    (hcc : (H.getCC : Int) = (A.m_LastContinuityCounter + 1) % 16)
    (hafc : H.getAFC ≠ 2 ∧ H.getAFC ≠ 3) :
    ∃ s, A.AbsorbPacket P H AF = some (eResult.AssemblingContinue, s) ∧
      s.m_Buffer = A.m_Buffer ++ P.drop 4 ∧ (P.drop 4).length = 184 ∧
      s.m_LastContinuityCounter = (H.getCC : Int) ∧ s.m_Started = true ∧ s.file = A.file := by
  have hAF : H.hasAdaptationField = false := by
    simp [xTS_PacketHeader.hasAdaptationField, xTS_PacketHeader.getAFC] at hafc ⊢
    exact hafc
  have hc : H.getCC < 128 := by omega
  have hne : P.isEmpty = false := isEmpty_false_of_lt (n := 0) (by omega)
  rw [AbsorbPacket_continue A P H AF hS hcc hst hAF,
    show ((xTS.TS_HeaderLength : Nat) : Int) = ((4 : Nat) : Int) from rfl,
    xBufferAppend_of_le A P 4 hne (by omega)]
  refine ⟨_, rfl, rfl, by simp [hlen], toInt8_of_lt hc, hst, rfl⟩
/-- Witness of C3: counter 0 after 15. -/
theorem C3_continuation_witness :
    ∃ s, (assembling 136 15).AbsorbPacket (continuationPacket 136 0 0xBB) (continuationHeader 0)
        (default : xTS_AdaptationField).Reset = some (eResult.AssemblingContinue, s) ∧
      s.m_Buffer = (assembling 136 15).m_Buffer ++ (continuationPacket 136 0 0xBB).drop 4 ∧
      ((continuationPacket 136 0 0xBB).drop 4).length = 184 ∧
      s.m_LastContinuityCounter = ((continuationHeader 0).getCC : Int) ∧ s.m_Started = true ∧
      s.file = (assembling 136 15).file :=
  C3_continuation (assembling 136 15) (continuationPacket 136 0 0xBB) (continuationHeader 0)
    (default : xTS_AdaptationField).Reset (by decide) (by decide) (by decide) (by decide)
    (by decide)

/-- C4, completion: in an assembler that is assembling with recorded counter `L` and buffer
`B`, a 188-byte packet without start bit, with counter `(L + 1) mod 16`, whose header
reports an adaptation field and whose byte 4, the declared length `a`, satisfies
`4 + a + 1 <= 188`, handed over with header and adaptation field prepared as `main` does, is
answered with `AssemblingFinished`; the adaptation field object carries the length `a`, the
buffer afterwards is `B` followed by the packet from byte `4 + a + 1` on, the recorded
counter is the packet's and the assembler is idle. -/
theorem C4_completion (A : xPES_Assembler) (P : List Nat) (H : xTS_PacketHeader)
    (AF : xTS_AdaptationField) (hlen : P.length = 188)
    (hH : prepareHeader default P = some H)
    (hP : prepareAdaptationField default P H = some AF)
    (hst : A.m_Started = true) (hS : H.isPayloadStart = false)
    (hcc : (H.getCC : Int) = (A.m_LastContinuityCounter + 1) % 16)
    (hAF : H.hasAdaptationField = true) (ha : 4 + byteFrom P 0 4 + 1 ≤ 188) :
    AF.getAdaptationFieldLength = byteFrom P 0 4 ∧
    ∃ s, absorbPrepared A P = some (eResult.AssemblingFinished, s) ∧
      s.m_Buffer = A.m_Buffer ++ P.drop (4 + byteFrom P 0 4 + 1) ∧
      s.m_LastContinuityCounter = (H.getCC : Int) ∧ s.m_Started = false := by
  obtain ⟨AF2, h1, h2⟩ := prepareAdaptationField_present default P H (by omega) hAF
  rw [hP] at h1
  cases h1
  obtain ⟨s, hs, hb, hl, hst2, _⟩ :=
    AbsorbPacket_finish_within A P H AF hlen hst hS hcc hAF (by rw [h2]; exact ha)
  rw [h2] at hb
  exact ⟨h2, s, by rw [absorbPrepared_eq A P H AF hH hP]; exact hs, hb, hl, hst2⟩
/-- Witness of C4: the packet with counter 3 and an adaptation field of length 7 after
counter 2; 176 bytes are appended. -/
theorem C4_completion_witness :
    ∃ s, absorbPrepared (assembling 136 2) (lastPacket 136 3) =
        some (eResult.AssemblingFinished, s) ∧
      s.m_Buffer = [0xAA] ++ List.replicate 176 0xDD ∧ s.m_LastContinuityCounter = 3 ∧
      s.m_Started = false :=
  (C4_completion (assembling 136 2) (lastPacket 136 3)
    { m_SB := 0x47, m_E := false, m_S := false, m_T := false, m_PID := 136, m_TSC := 0,
      m_AFC := 3, m_CC := 3 }
    { m_AdaptationFieldControl := 3, m_AdaptationFieldLength := 7, m_DC := false, m_RA := false,
      m_SP := false, m_PR := false, m_OR := false, m_SF := false, m_TP := false, m_EX := false,
      m_PCR := 0 }
    (by decide) (by decide) (by decide) (by decide) (by decide) (by decide) (by decide)
    (by decide)).2


/-- C5 as the code has it: a call of `AbsorbPacket` that returns `AssemblingFinished` appends
one block to the file, the assembly buffer as it is after the call's append, when the
tracked PID is 136, and leaves the file as it was for any other tracked PID; a call that
returns another result leaves the file as it was. -/
theorem C5_sink_write_only_for_pid_136 (A : xPES_Assembler) (P : List Nat)
    (H : xTS_PacketHeader) (AF : xTS_AdaptationField) (r : eResult) (s : xPES_Assembler)
    (h : A.AbsorbPacket P H AF = some (r, s)) :
    (r = eResult.AssemblingFinished → A.m_PID = 136 → s.file = A.file ++ [s.m_Buffer]) ∧
    (r = eResult.AssemblingFinished → A.m_PID ≠ 136 → s.file = A.file) ∧
    (r ≠ eResult.AssemblingFinished → s.file = A.file) := by
  cases hS : H.isPayloadStart
  · by_cases hcc : (H.getCC : Int) = (A.m_LastContinuityCounter + 1) % 16
    · cases hst : A.m_Started
      · rw [AbsorbPacket_idle A P H AF hS hcc hst] at h
        cases h
        simp
      · cases hAF : H.hasAdaptationField
        · rw [AbsorbPacket_continue A P H AF hS hcc hst hAF, Option.bind_eq_some] at h
          obtain ⟨a, ha, h⟩ := h
          cases h
          simp [(xBufferAppend_file ha).1]
        · rw [AbsorbPacket_finish A P H AF hS hcc hst hAF, Option.bind_eq_some] at h
          obtain ⟨a, ha, h⟩ := h
          obtain ⟨hf, hp, _⟩ := xBufferAppend_file ha
          cases h
          by_cases h136 : A.m_PID = 136
          · simp [hp, h136, xPES_Assembler.WriteFile, hf]
          · simp [hp, h136, hf]
    · rw [AbsorbPacket_mismatch A P H AF hS hcc] at h
      cases h
      simp
  · obtain ⟨s3, hf, _, _, _, _, _, he⟩ := AbsorbPacket_start A P H AF hS
    rw [he, Option.bind_eq_some] at h
    obtain ⟨r0, _, h⟩ := h
    split at h
    · cases h
      simp [hf]
    · rw [Option.bind_eq_some] at h
      obtain ⟨s5, h5, h⟩ := h
      cases h
      simp [(xBufferAppend_file h5).1, hf]
/-- Witness of C5: the completion packet of PID 136 writes the buffer of 177 bytes once. -/
theorem C5_sink_write_only_for_pid_136_witness :
    absorbPrepared (assembling 136 2) (lastPacket 136 3) =
      some (eResult.AssemblingFinished,
        { (assembling 136 2) with
          m_Buffer := [0xAA] ++ List.replicate 176 0xDD
          m_BufferSize := 177
          m_LastContinuityCounter := 3
          m_Started := false
          file := [[0xAA] ++ List.replicate 176 0xDD] }) ∧
    [[0xAA] ++ List.replicate 176 0xDD] =
      (assembling 136 2).file ++ [[0xAA] ++ List.replicate 176 0xDD] :=
  ⟨by decide,
    (C5_sink_write_only_for_pid_136 (assembling 136 2) (lastPacket 136 3)
      { m_SB := 0x47, m_E := false, m_S := false, m_T := false, m_PID := 136, m_TSC := 0,
        m_AFC := 3, m_CC := 3 }
      { m_AdaptationFieldControl := 3, m_AdaptationFieldLength := 7, m_DC := false,
        m_RA := false, m_SP := false, m_PR := false, m_OR := false, m_SF := false,
        m_TP := false, m_EX := false, m_PCR := 0 }
      eResult.AssemblingFinished
      { (assembling 136 2) with
        m_Buffer := [0xAA] ++ List.replicate 176 0xDD
        m_BufferSize := 177
        m_LastContinuityCounter := 3
        m_Started := false
        file := [[0xAA] ++ List.replicate 176 0xDD] }
      (by decide)).1 rfl (by decide)⟩

/-- Counterexample to C5 as stated: with tracked PID 100 the completion packet is answered
with `AssemblingFinished`, the buffer holds 177 bytes, and the file is still empty. -/
theorem C5_finished_without_write_for_pid_100 :
    (assembling 100 1).file = [] ∧
    (absorbPrepared (assembling 100 1) (lastPacket 100 2)).map
        (fun r => (r.1, r.2.m_PID, r.2.m_Buffer.length, r.2.file)) =
      some (eResult.AssemblingFinished, 100, 177, []) := by
  decide

/-- C6 as the code has it: a start packet of PID 136 that carries an adaptation field and a
PES header lying within the packet, then `k` packets without start bit and without
adaptation field, then one packet without start bit whose adaptation field ends inside the
packet, all of 188 bytes and with consecutive continuity counters modulo 16, handed to an
assembler after `Init` give the results `AssemblingStarted`, `k` times `AssemblingContinue`,
`AssemblingFinished`, with one `AssemblingFinished` among them, and append one block to the
file: the start packet after its adaptation field and PES header, the 184 bytes after the
header of each middle packet, and the last packet after its adaptation field, in this order;
its length is the sum of the three contributions. -/
theorem C6_reassembly_for_pid_136 (A0 : xPES_Assembler) (PID : Int) (start : List Nat)
    (mids : List (List Nat)) (last : List Nat) (Hs Hl : xTS_PacketHeader)
    (hls : start.length = 188) (hlm : ∀ M ∈ mids, M.length = 188) (hll : last.length = 188)
    (hHs : prepareHeader default start = some Hs) (hSs : Hs.isPayloadStart = true)
    (hpid : Hs.getPID = 136) (hAFs : Hs.hasAdaptationField = true)
    (hw : pesHeaderWithin start (4 + (byteFrom start 0 4 + 1)))
    (hmid : ∀ i M, mids[i]? = some M → ∃ H, prepareHeader default M = some H ∧
      H.isPayloadStart = false ∧ H.hasAdaptationField = false ∧
      H.getCC = (Hs.getCC + 1 + i) % 16)
    (hHl : prepareHeader default last = some Hl) (hSl : Hl.isPayloadStart = false)
    (hAFl : Hl.hasAdaptationField = true)
    (hccl : Hl.getCC = (Hs.getCC + 1 + mids.length) % 16)
    (hal : 4 + byteFrom last 0 4 + 1 ≤ 188) :
    ∃ s, absorbAll (A0.Init PID) (start :: mids ++ [last]) =
        some (eResult.AssemblingStarted ::
          List.replicate mids.length eResult.AssemblingContinue ++
            [eResult.AssemblingFinished], s) ∧
      (eResult.AssemblingStarted :: List.replicate mids.length eResult.AssemblingContinue ++
        [eResult.AssemblingFinished]).count eResult.AssemblingFinished = 1 ∧
      s.file = A0.file ++
        [start.drop (4 + (byteFrom start 0 4 + 1) + 9 +
            byteFrom start (4 + (byteFrom start 0 4 + 1)) 8) ++
          (mids.map (List.drop 4)).flatten ++ last.drop (4 + byteFrom last 0 4 + 1)] ∧
      (start.drop (4 + (byteFrom start 0 4 + 1) + 9 +
            byteFrom start (4 + (byteFrom start 0 4 + 1)) 8) ++
          (mids.map (List.drop 4)).flatten ++ last.drop (4 + byteFrom last 0 4 + 1)).length =
        (188 - (4 + (byteFrom start 0 4 + 1) + 9 +
            byteFrom start (4 + (byteFrom start 0 4 + 1)) 8)) +
          184 * mids.length + (188 - (4 + byteFrom last 0 4 + 1)) := by
  -- the start packet
  obtain ⟨AFs, hPs, hAs⟩ := prepareAdaptationField_present default start Hs (by omega) hAFs
  have hnb : AFs.getNumBytes = byteFrom start 0 4 + 1 := by
    rw [← hAs]; rfl
  have hcs : Hs.getCC ≤ 15 := prepareHeader_getCC_le hHs (by omega)
  obtain ⟨s1, hs1, hb1, hp1, hst1, hl1, hf1, _⟩ :=
    AbsorbPacket_start_within (A0.Init PID) start Hs AFs hSs hcs (by rw [hnb]; exact hw)
  rw [hnb] at hb1
  -- the continuation packets
  obtain ⟨s2, hst2, hl2, hb2, hp2, hf2, hrun⟩ :=
    absorbAll_continuations mids s1 Hs.getCC [last] hst1
      (by rw [hl1]; congr 1; omega) hlm hmid
  -- the last packet
  obtain ⟨AFl, hPl, hAl⟩ := prepareAdaptationField_present default last Hl (by omega) hAFl
  obtain ⟨s3, hs3, hb3, _, _, _, hf3⟩ :=
    AbsorbPacket_finish_within s2 last Hl AFl hll hst2 hSl
      (by rw [hl2, hccl]; omega) hAFl (by rw [hAl]; exact hal)
  have h136 : s2.m_PID = 136 := by rw [hp2, hp1, hpid]; rfl
  rw [if_pos h136, hb3, hAl, hb2, hb1, hf2, hf1] at hf3
  have hlast : absorbAll s2 [last] = some ([eResult.AssemblingFinished], s3) := by
    have hun : absorbAll s2 [last] =
        (absorbPrepared s2 last).bind fun r =>
          (absorbAll r.2 []).bind fun rs => some (r.1 :: rs.1, rs.2) := rfl
    rw [hun, absorbPrepared_eq s2 last Hl AFl hHl hPl, hs3]
    rfl
  have hun : absorbAll (A0.Init PID) (start :: mids ++ [last]) =
      (absorbPrepared (A0.Init PID) start).bind fun r =>
        (absorbAll r.2 (mids ++ [last])).bind fun rs => some (r.1 :: rs.1, rs.2) := rfl
  refine ⟨s3, ?_, ?_, ?_, ?_⟩
  · rw [hun, absorbPrepared_eq _ start Hs AFs hHs hPs, hs1, Option.some_bind, hrun, hlast]
    rfl
  · simp [List.count_cons, List.count_append, List.count_replicate]
  · rw [hf3]; rfl
  · have hsum : ∀ l : List (List Nat), (∀ M ∈ l, M.length = 188) →
        ((l.map (List.drop 4)).flatten).length = 184 * l.length := by
      intro l
      induction l with
      | nil => intro _; rfl
      | cons M l ih =>
        intro h
        have h1 := h M (by simp)
        have h2 := ih (fun M2 hM2 => h M2 (by simp [hM2]))
        simp only [List.map_cons, List.flatten_cons, List.length_append, List.length_drop,
          List.length_cons, h1, h2]
        omega
    simp only [List.length_append, List.length_drop, hsum mids hlm, hls, hll]
/-- Witness of C6: the stream of four packets of PID 136 with counters 0, 1, 2, 3. One block
of 168 + 184 + 184 + 176 = 712 bytes is written. -/
theorem C6_reassembly_for_pid_136_witness :
    ∃ s, absorbAll ((default : xPES_Assembler).Init 136)
        [startPacket 136, continuationPacket 136 1 0xBB, continuationPacket 136 2 0xCC,
          lastPacket 136 3] =
        some ([eResult.AssemblingStarted, eResult.AssemblingContinue,
          eResult.AssemblingContinue, eResult.AssemblingFinished], s) ∧
      s.file = [List.replicate 168 0xAA ++ List.replicate 184 0xBB ++ List.replicate 184 0xCC ++
        List.replicate 176 0xDD] :=
  (C6_reassembly_for_pid_136 default 136 (startPacket 136)
    [continuationPacket 136 1 0xBB, continuationPacket 136 2 0xCC] (lastPacket 136 3)
    { m_SB := 0x47, m_E := false, m_S := true, m_T := false, m_PID := 136, m_TSC := 0,
      m_AFC := 3, m_CC := 0 }
    { m_SB := 0x47, m_E := false, m_S := false, m_T := false, m_PID := 136, m_TSC := 0,
      m_AFC := 3, m_CC := 3 }
    (by decide) (by decide) (by decide) (by decide) (by decide) (by decide) (by decide)
    ⟨by decide, by decide, by decide⟩
    (fun i M h =>
      match i, h with
      | 0, h => ⟨continuationHeader 1, by cases h; decide, by decide, by decide, by decide⟩
      | 1, h => ⟨continuationHeader 2, by cases h; decide, by decide, by decide, by decide⟩
      | n + 2, h => by simp at h)
    (by decide) (by decide) (by decide) (by decide) (by decide)).imp
    fun _ hs => ⟨hs.1, hs.2.2.1⟩

/-- Counterexample to C6 as stated: the same kind of stream with PID 100 and counters 0, 1, 2
gives the three results with one `AssemblingFinished`, and nothing is written. -/
theorem C6_no_write_for_pid_100 :
    (absorbAll ((default : xPES_Assembler).Init 100)
        [startPacket 100, continuationPacket 100 1 0xBB, lastPacket 100 2]).map
        (fun r => (r.1, r.2.file)) =
      some ([eResult.AssemblingStarted, eResult.AssemblingContinue,
        eResult.AssemblingFinished], []) := by
  decide


/-- C7, transport header round trip: for a sync byte `sb`, flags `e`, `s`, `t`, a PID
`p <= 8191`, `tsc <= 3`, `afc <= 3` and `cc <= 15`, `Parse` on a buffer whose first four
bytes are `sb`, `(e<<7)|(s<<6)|(t<<5)|(p>>8)`, `p & 0xFF`, `(tsc<<6)|(afc<<4)|cc` returns 4
and the accessors give back `sb`, `e`, `s`, `t`, `p`, `tsc`, `afc`, `cc`;
`hasAdaptationField` holds exactly for `afc` 2 or 3. -/
theorem C7_header_round_trip (self : xTS_PacketHeader) (Input : List Nat) (sb : Nat)
    (e s t : Bool) (p tsc afc cc : Nat) (hp : p ≤ 8191) (htsc : tsc ≤ 3) (hafc : afc ≤ 3)
    (hcc : cc ≤ 15)
    (hin : Input.take 4 =
      [sb, (e.toNat <<< 7) ||| (s.toNat <<< 6) ||| (t.toNat <<< 5) ||| (p >>> 8), p &&& 0xFF,
        (tsc <<< 6) ||| (afc <<< 4) ||| cc]) :
    ∃ h, self.Parse Input = some (4, h) ∧ h.getSyncByte = sb ∧ h.hasTransportError = e ∧
      h.isPayloadStart = s ∧ h.hasTransportPriority = t ∧ h.getPID = p ∧ h.getTSC = tsc ∧
      h.getAFC = afc ∧ h.getCC = cc ∧ (h.hasAdaptationField = true ↔ afc = 2 ∨ afc = 3) := by
  have hq : p >>> 8 < 32 := by
    rw [Nat.shiftRight_eq_div_pow]; omega
  obtain ⟨h1, h2, h3, h4⟩ := byte1_fields (p >>> 8) hq e s t
  obtain ⟨h5, h6, h7⟩ := byte3_fields tsc (by omega) afc (by omega) cc (by omega)
  rw [eq_cons4_of_take hin]
  refine ⟨⟨sb, e, s, t, p, tsc, afc, cc⟩, ?_, rfl, rfl, rfl, rfl, rfl, rfl, rfl, rfl, ?_⟩
  · simp [xTS_PacketHeader.Parse, byteAt, h1, h2, h3, h4, h5, h6, h7, shift8_or_low]
  · simp [xTS_PacketHeader.hasAdaptationField]
/-- Witness of C7: PID 8191, continuity counter 15, adaptation-field control 3, start bit
set, on a buffer of five bytes. -/
theorem C7_header_round_trip_witness :
    ∃ h, (default : xTS_PacketHeader).Parse [0x47, 0x5F, 0xFF, 0x3F, 0x00] = some (4, h) ∧
      h.getSyncByte = 0x47 ∧ h.hasTransportError = false ∧ h.isPayloadStart = true ∧
      h.hasTransportPriority = false ∧ h.getPID = 8191 ∧ h.getTSC = 0 ∧ h.getAFC = 3 ∧
      h.getCC = 15 ∧ (h.hasAdaptationField = true ↔ 3 = 2 ∨ 3 = 3) :=
  C7_header_round_trip default [0x47, 0x5F, 0xFF, 0x3F, 0x00] 0x47 false true false 8191 0 3 15
    (by decide) (by decide) (by decide) (by decide) (by decide)

/-- C8, at buffers of one, two and three bytes: `Parse` passes its `Input.empty()` guard and
reads outside the buffer; it does not return `NOT_VALID`. Only the empty buffer is answered
with `NOT_VALID`, and every buffer of at least four bytes with 4. -/
theorem C8_short_buffer_read_outside (self : xTS_PacketHeader) :
    self.Parse [0x47] = none ∧ self.Parse [0x47, 0x40] = none ∧
    self.Parse [0x47, 0x40, 0x88] = none ∧
    (∀ Input : List Nat, 0 < Input.length → Input.length < 4 → self.Parse Input = none) ∧
    self.Parse [] = some (NOT_VALID, self) ∧
    (∀ Input : List Nat, 4 ≤ Input.length → ∃ h, self.Parse Input = some (4, h)) := by
  have short : ∀ Input : List Nat, 0 < Input.length → Input.length < 4 →
      self.Parse Input = none := by
    intro Input h0 h4
    have hne : Input.isEmpty = false := isEmpty_false_of_lt h0
    have h3 : byteAt Input 3 = none := by
      simp only [byteAt]
      exact List.getElem?_eq_none (by omega)
    unfold xTS_PacketHeader.Parse
    simp only [hne, Bool.false_eq_true, if_false, h3]
    cases byteAt Input 0 <;> cases byteAt Input 1 <;> cases byteAt Input 2 <;> rfl
  refine ⟨short _ (by decide) (by decide), short _ (by decide) (by decide),
    short _ (by decide) (by decide), short, rfl, ?_⟩
  intro Input h4
  have hne : Input.isEmpty = false := isEmpty_false_of_lt (n := 0) (by omega)
  simp [xTS_PacketHeader.Parse, hne, byteAt_eq Input 0 (by omega), byteAt_eq Input 1 (by omega),
    byteAt_eq Input 2 (by omega), byteAt_eq Input 3 (by omega)]

/-- C9 as the code has it: when the bytes that `Parse` reads are inside the buffer, nine bytes
from `Offset` for PTS/DTS flag 0, fourteen for flag 1 or 2, nineteen for flag 3, then with
`d[i] = buffer[Offset + i]` the call returns `9 + d[8]` and sets the start-code prefix to
`(d[0] << 16) | (d[1] << 8) | d[2]`, the stream id to `d[3]`, the packet length to
`(d[4] << 8) | d[5]`, the PTS/DTS flag to `d[7] >> 6`, the six flags to bits 5, 4, 3, 2, 1, 0
of `d[7]` and the header length to `9 + d[8]`. -/
theorem C9_pes_fixed_fields (self : xPES_PacketHeader) (Data : List Nat) (Offset : Nat)
    (h9 : Offset + 9 ≤ Data.length)
    (h14 : byteFrom Data Offset 7 >>> 6 = 1 ∨ byteFrom Data Offset 7 >>> 6 = 2 →
      Offset + 14 ≤ Data.length)
    (h19 : byteFrom Data Offset 7 >>> 6 = 3 → Offset + 19 ≤ Data.length) :
    ∃ h, self.Parse Data (Offset : Int) = some (9 + (byteFrom Data Offset 8 : Int), h) ∧
      h.m_PacketStartCodePrefix =
        ((byteFrom Data Offset 0 <<< 16) ||| (byteFrom Data Offset 1 <<< 8) |||
          byteFrom Data Offset 2) ∧
      h.m_StreamId = byteFrom Data Offset 3 ∧
      h.m_PacketLength = ((byteFrom Data Offset 4 <<< 8) ||| byteFrom Data Offset 5) ∧
      h.m_PTS_DTS = byteFrom Data Offset 7 >>> 6 ∧
      h.m_ESCR_flag = (byteFrom Data Offset 7).testBit 5 ∧
      h.m_ES_rate_flag = (byteFrom Data Offset 7).testBit 4 ∧
      h.m_DSM_trick_mode_flag = (byteFrom Data Offset 7).testBit 3 ∧
      h.m_additional_copy_info_flag = (byteFrom Data Offset 7).testBit 2 ∧
      h.m_PES_CRC_flag = (byteFrom Data Offset 7).testBit 1 ∧
      h.m_PES_extension_flag = (byteFrom Data Offset 7).testBit 0 ∧
      h.m_HeaderLength = 9 + (byteFrom Data Offset 8 : Int) :=
  PES_Parse_within self Data Offset h9 h14 h19

/-- Witness of C9: the PES header of the start packet of PID 136, at offset 6, with PTS/DTS
flag 2 and header data length 5. -/
theorem C9_pes_fixed_fields_witness :
    ∃ h, (default : xPES_PacketHeader).Parse (startPacket 136) ((6 : Nat) : Int) =
        some (9 + (byteFrom (startPacket 136) 6 8 : Int), h) ∧
      h.m_StreamId = byteFrom (startPacket 136) 6 3 ∧
      h.m_PTS_DTS = byteFrom (startPacket 136) 6 7 >>> 6 :=
  (C9_pes_fixed_fields default (startPacket 136) 6 (by decide) (by decide) (by decide)).imp
    fun _ hh => ⟨hh.1, hh.2.2.1, hh.2.2.2.2.1⟩

/-- Counterexample to C9 as stated: nine bytes remain from offset 0 and the PTS/DTS flag is
2; `Parse` reads byte 9, outside the buffer, and returns nothing. -/
theorem C9_nine_bytes_with_pts_flag_read_outside :
    pesHeaderNineBytes.length = 9 ∧ byteFrom pesHeaderNineBytes 0 7 >>> 6 = 2 ∧
    (default : xPES_PacketHeader).Parse pesHeaderNineBytes 0 = none := by
  decide

/-- C10, at time stamp 900000: `Parse` on the PES header with PTS/DTS flag 2 and the five
pattern bytes `0x21 0x00 0x37 0x77 0x41` of 900000 returns 14 and stores the presentation
time stamp 1784736, not 900000. -/
theorem C10_pts_900000_decoded_as_1784736 :
    ptsPattern 900000 = [0x21, 0x00, 0x37, 0x77, 0x41] ∧
    ((default : xPES_PacketHeader).Reset.Parse pesHeaderPts900000 0).map
        (fun r => (r.1, r.2.m_PTS_DTS, r.2.m_PresentationTimeStamp)) =
      some (14, 2, 1784736) := by
  decide

/-- C11, time stamp selection: when the bytes that `Parse` reads are inside the buffer, `Parse`
on a header object after `Reset` gives, with `d[i] = buffer[Offset + i]` and the five-byte
unpacking expression of the code: for PTS/DTS flag 0 both time stamps 0; for flag 2 the
presentation time stamp unpacked from `d[9..13]` and decode time stamp 0; for flag 1 the
decode time stamp unpacked from `d[9..13]` and presentation time stamp 0; for flag 3 the
presentation time stamp unpacked from `d[9..13]` and the decode time stamp unpacked the same
way from `d[14..18]`. -/
theorem C11_timestamp_selection (self : xPES_PacketHeader) (Data : List Nat) (Offset : Nat)
    (h9 : Offset + 9 ≤ Data.length)
    (h14 : byteFrom Data Offset 7 >>> 6 = 1 ∨ byteFrom Data Offset 7 >>> 6 = 2 →
      Offset + 14 ≤ Data.length)
    (h19 : byteFrom Data Offset 7 >>> 6 = 3 → Offset + 19 ≤ Data.length) :
    ∃ h, self.Reset.Parse Data (Offset : Int) = some (9 + (byteFrom Data Offset 8 : Int), h) ∧
      (byteFrom Data Offset 7 >>> 6 = 0 →
        h.m_PresentationTimeStamp = 0 ∧ h.m_DecodeTimeStamp = 0) ∧
      (byteFrom Data Offset 7 >>> 6 = 2 →
        h.m_PresentationTimeStamp =
          xPES_PacketHeader.unpackTimeStamp (byteFrom Data Offset 9) (byteFrom Data Offset 10)
            (byteFrom Data Offset 11) (byteFrom Data Offset 12) (byteFrom Data Offset 13) ∧
        h.m_DecodeTimeStamp = 0) ∧
      (byteFrom Data Offset 7 >>> 6 = 1 →
        h.m_DecodeTimeStamp =
          xPES_PacketHeader.unpackTimeStamp (byteFrom Data Offset 9) (byteFrom Data Offset 10)
            (byteFrom Data Offset 11) (byteFrom Data Offset 12) (byteFrom Data Offset 13) ∧
        h.m_PresentationTimeStamp = 0) ∧
      (byteFrom Data Offset 7 >>> 6 = 3 →
        h.m_PresentationTimeStamp =
          xPES_PacketHeader.unpackTimeStamp (byteFrom Data Offset 9) (byteFrom Data Offset 10)
            (byteFrom Data Offset 11) (byteFrom Data Offset 12) (byteFrom Data Offset 13) ∧
        h.m_DecodeTimeStamp =
          xPES_PacketHeader.unpackTimeStamp (byteFrom Data Offset 14) (byteFrom Data Offset 15)
            (byteFrom Data Offset 16) (byteFrom Data Offset 17) (byteFrom Data Offset 18)) := by
  refine ⟨_, PES_Parse_eq self.Reset Data Offset h9 h14 h19, ?_, ?_, ?_, ?_⟩
  · intro h; simp [h, xPES_PacketHeader.Reset]
  · intro h; simp [h, xPES_PacketHeader.Reset]
  · intro h; simp [h, xPES_PacketHeader.Reset]
  · intro h; simp [h]

/-- Witness of C11: a header of 19 bytes with PTS/DTS flag 3; both time stamps are unpacked,
the second from bytes 14 to 18. -/
theorem C11_timestamp_selection_witness :
    ∃ h, (default : xPES_PacketHeader).Reset.Parse pesHeaderPtsDts ((0 : Nat) : Int) =
        some (9 + (byteFrom pesHeaderPtsDts 0 8 : Int), h) ∧
      h.m_PresentationTimeStamp = 1784736 ∧ h.m_DecodeTimeStamp = 155536 :=
  (C11_timestamp_selection default pesHeaderPtsDts 0 (by decide) (by decide) (by decide)).imp
    fun _ hh => ⟨hh.1, (hh.2.2.2.2 (by decide)).1.trans (by decide),
      (hh.2.2.2.2 (by decide)).2.trans (by decide)⟩

/-- C12, at clock bases from `2 ^ 32 / 300` on: `m_PCR` is a `uint32_t`, so the base is cut to
32 bits and the product with 300 wraps modulo `2 ^ 32`. Base 1000 gives 300000; base 14316558
gives 104 instead of 4294967400; base `2 ^ 32` gives 0. In general the stored value after
`Reset` and `Parse` is `((B mod 2 ^ 32) * 300) mod 2 ^ 32` for the base `B` of the packet. -/
theorem C12_pcr_wraps_at_32_bits :
    (pcrBase (pcrPacket 0 0 1 244 0x7E) = 1000 ∧
      ((default : xTS_AdaptationField).Reset.Parse (pcrPacket 0 0 1 244 0x7E) 2).map
        (fun r => (r.2.m_PR, r.2.m_PCR)) = some (true, 300000)) ∧
    (pcrBase (pcrPacket 0 109 58 7 0x7E) = 14316558 ∧ 300 * 14316558 = 4294967400 ∧
      ((default : xTS_AdaptationField).Reset.Parse (pcrPacket 0 109 58 7 0x7E) 2).map
        (fun r => (r.2.m_PR, r.2.m_PCR)) = some (true, 104)) ∧
    (pcrBase (pcrPacket 0x80 0 0 0 0x7E) = 2 ^ 32 ∧
      ((default : xTS_AdaptationField).Reset.Parse (pcrPacket 0x80 0 0 0 0x7E) 2).map
        (fun r => (r.2.m_PR, r.2.m_PCR)) = some (true, 0)) ∧
    (∀ (self : xTS_AdaptationField) (P : List Nat) (c : Nat), 11 ≤ P.length →
      (byteFrom P 0 5 &&& 0x10) ≠ 0 →
      ∃ s, self.Reset.Parse P c = some ((byteFrom P 0 4 : Int), s) ∧
        s.m_PCR = (pcrBase P % 2 ^ 32 * 300) % 2 ^ 32) := by
  refine ⟨by decide, by decide, by decide, ?_⟩
  intro self P c hlen hpr
  refine ⟨_, AF_Parse_eq self.Reset P c (by omega) (fun _ => hlen), ?_⟩
  simp [hpr, xTS_AdaptationField.Reset, toUInt32]

/-- C13, at the flags discontinuity and random access: `Parse` stores bit 7 (`0x80`) of byte 5
in `m_RA` and bit 6 (`0x40`) in `m_DC`. With flag byte `0x80` it leaves `m_DC` false and `m_RA`
true, with `0x40` the other way round. The length is byte 4, `getNumBytes` is byte 4 + 1, and
the other six flags are bits 5 to 0 in the order of the claim. -/
theorem C13_discontinuity_and_random_access_swapped :
    ((default : xTS_AdaptationField).Reset.Parse (flagsPacket 0x80) 3).map
        (fun r => (r.1, r.2.getNumBytes, r.2.m_DC, r.2.m_RA)) = some (7, 8, false, true) ∧
    ((default : xTS_AdaptationField).Reset.Parse (flagsPacket 0x40) 3).map
        (fun r => (r.1, r.2.getNumBytes, r.2.m_DC, r.2.m_RA)) = some (7, 8, true, false) ∧
    (∀ (self : xTS_AdaptationField) (P : List Nat) (c : Nat), 6 ≤ P.length →
      ((byteFrom P 0 5 &&& 0x10) ≠ 0 → 11 ≤ P.length) →
      ∃ s, self.Parse P c = some ((byteFrom P 0 4 : Int), s) ∧
        s.getAdaptationFieldLength = byteFrom P 0 4 ∧ s.getNumBytes = byteFrom P 0 4 + 1 ∧
        s.m_RA = (byteFrom P 0 5).testBit 7 ∧ s.m_DC = (byteFrom P 0 5).testBit 6 ∧
        s.m_SP = (byteFrom P 0 5).testBit 5 ∧ s.m_PR = (byteFrom P 0 5).testBit 4 ∧
        s.m_OR = (byteFrom P 0 5).testBit 3 ∧ s.m_SF = (byteFrom P 0 5).testBit 2 ∧
        s.m_TP = (byteFrom P 0 5).testBit 1 ∧ s.m_EX = (byteFrom P 0 5).testBit 0) := by
  refine ⟨by decide, by decide, ?_⟩
  intro self P c h6 h11
  have f7 : ((byteFrom P 0 5 &&& 0x80) != 0) = (byteFrom P 0 5).testBit 7 :=
    and_two_pow_ne_zero _ 7
  have f6 : ((byteFrom P 0 5 &&& 0x40) != 0) = (byteFrom P 0 5).testBit 6 :=
    and_two_pow_ne_zero _ 6
  have f5 : ((byteFrom P 0 5 &&& 0x20) != 0) = (byteFrom P 0 5).testBit 5 :=
    and_two_pow_ne_zero _ 5
  have f4 : ((byteFrom P 0 5 &&& 0x10) != 0) = (byteFrom P 0 5).testBit 4 :=
    and_two_pow_ne_zero _ 4
  have f3 : ((byteFrom P 0 5 &&& 0x08) != 0) = (byteFrom P 0 5).testBit 3 :=
    and_two_pow_ne_zero _ 3
  have f2 : ((byteFrom P 0 5 &&& 0x04) != 0) = (byteFrom P 0 5).testBit 2 :=
    and_two_pow_ne_zero _ 2
  have f1 : ((byteFrom P 0 5 &&& 0x02) != 0) = (byteFrom P 0 5).testBit 1 :=
    and_two_pow_ne_zero _ 1
  have f0 : ((byteFrom P 0 5 &&& 0x01) != 0) = (byteFrom P 0 5).testBit 0 :=
    and_two_pow_ne_zero _ 0
  exact ⟨_, AF_Parse_eq self P c h6 h11, rfl, rfl, f7, f6, f5, f4, f3, f2, f1, f0⟩

/-- C14, at non-empty buffers with fewer than nine bytes from the offset on: `Parse` passes
its `Data.empty()` guard and reads outside the buffer; it does not return `NOT_VALID`. This
holds for the five-byte buffer, for offset 184 in a packet of 188 bytes, and for every
non-empty buffer and offset with fewer than nine bytes remaining. Only the empty buffer is
answered with `NOT_VALID`. -/
theorem C14_short_pes_buffer_read_outside (self : xPES_PacketHeader) :
    pesHeaderFiveBytes.length = 5 ∧ self.Parse pesHeaderFiveBytes 0 = none ∧
    (startPacket 136).length = 188 ∧ self.Parse (startPacket 136) 184 = none ∧
    (∀ (Data : List Nat) (Offset : Int), 0 < Data.length →
      (Data.length : Int) - Offset < 9 → self.Parse Data Offset = none) ∧
    (∀ Offset : Int, self.Parse [] Offset = some (NOT_VALID, self)) :=
  ⟨by decide, PES_Parse_short self _ 0 (by decide) (by decide), by decide,
    PES_Parse_short self _ 184 (by decide) (by decide),
    fun Data Offset h0 h => PES_Parse_short self Data Offset h0 h, fun _ => rfl⟩

/-- C15, at a start packet whose PES header declares more bytes than the packet has: `Parse`
returns the header length 264 for the header at byte 6 of `oversizedStartPacket`, not
`NOT_VALID`, and `AbsorbPacket` goes on to copy the packet from byte 270 on, outside the
packet; it does not return `StreamPackedLost`. No start packet that is not empty is ever
answered with `StreamPackedLost`. -/
theorem C15_oversized_pes_header_not_reported :
    oversizedStartPacket.length = 188 ∧
    ((default : xPES_PacketHeader).Reset.Parse oversizedStartPacket 6).map Prod.fst =
      some 264 ∧
    absorbPrepared ((default : xPES_Assembler).Init 136) oversizedStartPacket = none ∧
    (∀ (A : xPES_Assembler) (P : List Nat) (H : xTS_PacketHeader) (AF : xTS_AdaptationField)
      (s : xPES_Assembler), H.isPayloadStart = true → 0 < P.length →
      A.AbsorbPacket P H AF ≠ some (eResult.StreamPackedLost, s)) :=
  ⟨by decide, by decide, by decide,
    fun A P H AF s hS h0 => AbsorbPacket_start_not_lost A P H AF hS h0 s⟩

/-- C16 as the code has it: the start-code prefix is not checked. A start packet of 188 bytes
that carries an adaptation field and whose PES header lies within the packet is answered
with `AssemblingStarted` whatever the three prefix bytes are; the header length is the usual
`9 + d[8]`, and the prefix read is kept in the PES header object. -/
theorem C16_start_code_prefix_not_checked (A : xPES_Assembler) (P : List Nat)
    (H : xTS_PacketHeader) (AF : xTS_AdaptationField) (hlen : P.length = 188)
    (hH : prepareHeader default P = some H)
    (hP : prepareAdaptationField default P H = some AF)
    (hS : H.isPayloadStart = true) (hAF : H.hasAdaptationField = true)
    (hw : pesHeaderWithin P (4 + (byteFrom P 0 4 + 1))) :
    ∃ s, absorbPrepared A P = some (eResult.AssemblingStarted, s) ∧
      s.m_PESH.getPacketStartCodePrefix =
        ((byteFrom P (4 + (byteFrom P 0 4 + 1)) 0 <<< 16) |||
          (byteFrom P (4 + (byteFrom P 0 4 + 1)) 1 <<< 8) |||
          byteFrom P (4 + (byteFrom P 0 4 + 1)) 2) ∧
      s.m_PESH.getHeaderLength = 9 + (byteFrom P (4 + (byteFrom P 0 4 + 1)) 8 : Int) := by
  obtain ⟨AF2, h1, h2⟩ := prepareAdaptationField_present default P H (by omega) hAF
  rw [hP] at h1
  cases h1
  have hnb : AF.getNumBytes = byteFrom P 0 4 + 1 := by
    rw [← h2]; rfl
  obtain ⟨s, hs, hp, hl⟩ :=
    AbsorbPacket_start_within_prefix A P H AF hS (by rw [hnb]; exact hw)
  rw [hnb] at hp hl
  exact ⟨s, by rw [absorbPrepared_eq A P H AF hH hP]; exact hs, hp, hl⟩

/-- Witness of C16: the start packet with the prefix bytes `00 00 02` is answered with
`AssemblingStarted`; the prefix 2 is kept and the header length is 14. -/
theorem C16_start_code_prefix_not_checked_witness :
    ∃ s, absorbPrepared ((default : xPES_Assembler).Init 136) (startPacketWithPrefix 0 0 2) =
        some (eResult.AssemblingStarted, s) ∧
      s.m_PESH.getPacketStartCodePrefix = 2 ∧ s.m_PESH.getHeaderLength = 14 :=
  C16_start_code_prefix_not_checked ((default : xPES_Assembler).Init 136)
    (startPacketWithPrefix 0 0 2)
    { m_SB := 0x47, m_E := false, m_S := true, m_T := false, m_PID := 136, m_TSC := 0,
      m_AFC := 3, m_CC := 0 }
    { m_AdaptationFieldControl := 3, m_AdaptationFieldLength := 1, m_DC := false, m_RA := false,
      m_SP := false, m_PR := false, m_OR := false, m_SF := false, m_TP := false, m_EX := false,
      m_PCR := 0 }
    (by decide) (by decide) (by decide) (by decide) (by decide)
    ⟨by decide, by decide, by decide⟩

/-- Counterexample to C16 as stated: the start packets with prefix bytes `00 00 02` and
`FF FF FF` get the result, the header length and the buffer of the packet with the valid
prefix `00 00 01`, and `Parse` returns 14 for the three of them. -/
theorem C16_invalid_prefix_accepted_like_valid :
    (absorbPrepared ((default : xPES_Assembler).Init 136) (startPacketWithPrefix 0 0 1)).map
        (fun r => (r.1, r.2.m_PESH.getHeaderLength, r.2.m_Buffer)) =
      some (eResult.AssemblingStarted, 14, List.replicate 168 0xAA) ∧
    (absorbPrepared ((default : xPES_Assembler).Init 136) (startPacketWithPrefix 0 0 2)).map
        (fun r => (r.1, r.2.m_PESH.getHeaderLength, r.2.m_Buffer)) =
      some (eResult.AssemblingStarted, 14, List.replicate 168 0xAA) ∧
    (absorbPrepared ((default : xPES_Assembler).Init 136)
        (startPacketWithPrefix 0xFF 0xFF 0xFF)).map
        (fun r => (r.1, r.2.m_PESH.getHeaderLength, r.2.m_Buffer)) =
      some (eResult.AssemblingStarted, 14, List.replicate 168 0xAA) ∧
    ((default : xPES_PacketHeader).Reset.Parse (startPacketWithPrefix 0 0 1) 6).map Prod.fst =
      some 14 ∧
    ((default : xPES_PacketHeader).Reset.Parse (startPacketWithPrefix 0 0 2) 6).map Prod.fst =
      some 14 ∧
    ((default : xPES_PacketHeader).Reset.Parse (startPacketWithPrefix 0xFF 0xFF 0xFF) 6).map
      Prod.fst = some 14 := by
  decide

/-- C17, first part, and where the second part breaks: every call that returns
`StreamPackedLost` leaves the assembler idle and the file as it was, and a start packet that
carries an adaptation field and a PES header within the packet is answered with
`AssemblingStarted` in every state. But after a loss the start packet
`startPacketNoAFPayloadFF`, which has no adaptation field and a PES header of 9 bytes within
the packet at byte 4, is not answered with `AssemblingStarted`: the header is parsed at
byte 5, its length comes out as 264, and the copy from byte 269 on lies outside the packet. -/
theorem C17_lost_is_idle_but_start_without_adaptation_field_not_accepted :
    (∀ (A : xPES_Assembler) (P : List Nat) (H : xTS_PacketHeader) (AF : xTS_AdaptationField)
      (s : xPES_Assembler), A.AbsorbPacket P H AF = some (eResult.StreamPackedLost, s) →
      s.m_Started = false ∧ s.file = A.file) ∧
    (∀ (A : xPES_Assembler) (P : List Nat) (H : xTS_PacketHeader) (AF : xTS_AdaptationField),
      P.length = 188 → prepareHeader default P = some H →
      prepareAdaptationField default P H = some AF → H.isPayloadStart = true →
      H.hasAdaptationField = true → pesHeaderWithin P (4 + (byteFrom P 0 4 + 1)) →
      ∃ s, absorbPrepared A P = some (eResult.AssemblingStarted, s)) ∧
    pesHeaderWithin startPacketNoAFPayloadFF 4 ∧
    ((default : xPES_PacketHeader).Reset.Parse startPacketNoAFPayloadFF 4).map
        (fun r => (r.1, r.2.m_PacketStartCodePrefix)) = some (9, 0x000001) ∧
    ((default : xPES_PacketHeader).Reset.Parse startPacketNoAFPayloadFF 5).map Prod.fst =
      some 264 ∧
    (absorbPrepared (assembling 136 5) (continuationPacket 136 9 0xBB)).map
        (fun r => (r.1, r.2.m_Started, absorbPrepared r.2 startPacketNoAFPayloadFF)) =
      some (eResult.StreamPackedLost, false, none) := by
  refine ⟨fun A P H AF s h => AbsorbPacket_lost_idle A P H AF s h, ?_,
    ⟨by decide, by decide, by decide⟩, by decide, by decide, by decide⟩
  intro A P H AF hlen hH hP hS hAF hw
  obtain ⟨AF2, h1, h2⟩ := prepareAdaptationField_present default P H (by omega) hAF
  rw [hP] at h1
  cases h1
  have hnb : AF.getNumBytes = byteFrom P 0 4 + 1 := by
    rw [← h2]; rfl
  obtain ⟨s, hs, _⟩ :=
    AbsorbPacket_start_within_prefix A P H AF hS (by rw [hnb]; exact hw)
  exact ⟨s, by rw [absorbPrepared_eq A P H AF hH hP]; exact hs⟩

/-- C18, a packet without start bit while idle: in every state with `m_Started` false, the
state after `Init` with recorded counter -1 included, a packet without start bit and with a
four-bit continuity counter, whatever the counter and the adaptation-field control, is
answered with `StreamPackedLost`; afterwards the assembler is idle, buffer and recorded buffer
size are as before, the file is as before, and the recorded counter is the packet's. -/
theorem C18_non_start_while_idle (A : xPES_Assembler) (P : List Nat) (H : xTS_PacketHeader)
    (AF : xTS_AdaptationField) (hst : A.m_Started = false) (hS : H.isPayloadStart = false)
    (hc : H.getCC ≤ 15) :
    ∃ s, A.AbsorbPacket P H AF = some (eResult.StreamPackedLost, s) ∧ s.m_Started = false ∧
      s.m_Buffer = A.m_Buffer ∧ s.m_BufferSize = A.m_BufferSize ∧ s.file = A.file ∧
      s.m_LastContinuityCounter = (H.getCC : Int) := by
  have hi8 : toInt8 H.getCC = (H.getCC : Int) := toInt8_of_lt (by omega)
  by_cases hcc : (H.getCC : Int) = (A.m_LastContinuityCounter + 1) % 16
  · exact ⟨_, AbsorbPacket_idle A P H AF hS hcc hst, rfl, rfl, rfl, rfl, hi8⟩
  · exact ⟨_, AbsorbPacket_mismatch A P H AF hS hcc, rfl, rfl, rfl, rfl, hi8⟩

/-- Witness of C18: right after `Init`, where the recorded counter is -1, the packet with
counter 0 and an adaptation field, whose counter fits, is reported lost; so is the packet
with counter 7 and no adaptation field. -/
theorem C18_non_start_while_idle_witness :
    ((default : xPES_Assembler).Init 136).m_LastContinuityCounter = -1 ∧
    (∃ s, absorbPrepared ((default : xPES_Assembler).Init 136) (lastPacket 136 0) =
        some (eResult.StreamPackedLost, s) ∧ s.m_Started = false ∧ s.m_Buffer = [] ∧
        s.m_BufferSize = 0 ∧ s.file = [] ∧ s.m_LastContinuityCounter = 0) ∧
    (∃ s, ((default : xPES_Assembler).Init 136).AbsorbPacket (continuationPacket 136 7 0xBB)
        (continuationHeader 7) (default : xTS_AdaptationField).Reset =
        some (eResult.StreamPackedLost, s) ∧ s.m_Started = false ∧ s.m_Buffer = [] ∧
        s.m_BufferSize = 0 ∧ s.file = [] ∧ s.m_LastContinuityCounter = 7) :=
  ⟨rfl,
    (C18_non_start_while_idle ((default : xPES_Assembler).Init 136) (lastPacket 136 0)
      { m_SB := 0x47, m_E := false, m_S := false, m_T := false, m_PID := 136, m_TSC := 0,
        m_AFC := 3, m_CC := 0 }
      { m_AdaptationFieldControl := 3, m_AdaptationFieldLength := 7, m_DC := false,
        m_RA := false, m_SP := false, m_PR := false, m_OR := false, m_SF := false,
        m_TP := false, m_EX := false, m_PCR := 0 }
      (by decide) (by decide) (by decide)).imp
      fun _ hs => ⟨(by decide : absorbPrepared ((default : xPES_Assembler).Init 136)
        (lastPacket 136 0) = _).trans hs.1, hs.2⟩,
    C18_non_start_while_idle ((default : xPES_Assembler).Init 136)
      (continuationPacket 136 7 0xBB) (continuationHeader 7)
      (default : xTS_AdaptationField).Reset (by decide) (by decide) (by decide)⟩

/-- C19, at a first time stamp byte with bit 2 or 3 set: every operand of the unpacking
expression is cast to `uint32_t`, so `(b9 & 0x0E) << 30` is cut to 32 bits. With the bytes
`0x25 0x00 0x01 0x00 0x01` the expression over unbounded integers is `2 ^ 32`, and `Parse`
stores presentation time stamp 0. For all bytes the stored value is the expression over
unbounded integers reduced modulo `2 ^ 32`. -/
theorem C19_pts_term_cut_to_32_bits :
    ptsFormula 0x25 0x00 0x01 0x00 0x01 = 2 ^ 32 ∧
    ((default : xPES_PacketHeader).Reset.Parse pesHeaderPtsHighBit 0).map
        (fun r => (r.1, r.2.m_PTS_DTS, r.2.m_PresentationTimeStamp)) = some (14, 2, 0) ∧
    (∀ b9 b10 b11 b12 b13 : Nat, b10 < 256 → b12 < 256 →
      xPES_PacketHeader.unpackTimeStamp b9 b10 b11 b12 b13 =
        ptsFormula b9 b10 b11 b12 b13 % 2 ^ 32) :=
  ⟨by decide, by decide, fun b9 b10 b11 b12 b13 h10 h12 =>
    unpackTimeStamp_eq_mod b9 b10 b11 b12 b13 h10 h12⟩

/-- C20 as the code has it: on a packet that is not empty, `Parse` gives the same return
value, length and flags for any two prior contents of the object, and the same PCR tick
count when the two prior contents hold the same `m_PCR`, as they do after `Reset`. -/
theorem C20_parse_depends_on_prior_pcr_only (s1 s2 : xTS_AdaptationField) (P : List Nat)
    (c : Nat) (h0 : 0 < P.length) :
    (s1.Parse P c).map (fun r => (r.1, { r.2 with m_PCR := 0 })) =
      (s2.Parse P c).map (fun r => (r.1, { r.2 with m_PCR := 0 })) ∧
    (s1.m_PCR = s2.m_PCR → s1.Parse P c = s2.Parse P c) ∧
    s1.Reset.Parse P c = s2.Reset.Parse P c :=
  ⟨(AF_Parse_prior s1 s2 P c h0).1, (AF_Parse_prior s1 s2 P c h0).2, rfl⟩

/-- Witness of C20: two objects that differ in length, control and flags but hold the same
`m_PCR` come out of `Parse` on the packet with clock base 1000 as the same object. -/
theorem C20_parse_depends_on_prior_pcr_only_witness :
    ({ m_AdaptationFieldControl := 1, m_AdaptationFieldLength := 9, m_DC := true, m_RA := true,
        m_SP := true, m_PR := false, m_OR := true, m_SF := true, m_TP := true, m_EX := true,
        m_PCR := 0 } : xTS_AdaptationField).Parse (pcrPacket 0 0 1 244 0x7E) 2 =
      (default : xTS_AdaptationField).Reset.Parse (pcrPacket 0 0 1 244 0x7E) 2 :=
  (C20_parse_depends_on_prior_pcr_only
    { m_AdaptationFieldControl := 1, m_AdaptationFieldLength := 9, m_DC := true, m_RA := true,
      m_SP := true, m_PR := false, m_OR := true, m_SF := true, m_TP := true, m_EX := true,
      m_PCR := 0 }
    (default : xTS_AdaptationField).Reset (pcrPacket 0 0 1 244 0x7E) 2 (by decide)).2.1 rfl

/-- Counterexample to C20 as stated: `Parse` once after `Reset` on the packet with clock base
1000 leaves PCR 300000; `Parse` a second time on the same packet, without `Reset` in between,
leaves PCR 90002400. -/
theorem C20_second_parse_changes_pcr :
    ((default : xTS_AdaptationField).Reset.Parse (pcrPacket 0 0 1 244 0x7E) 2).map
        (fun r => r.2.m_PCR) = some 300000 ∧
    (((default : xTS_AdaptationField).Reset.Parse (pcrPacket 0 0 1 244 0x7E) 2).bind
        (fun r => r.2.Parse (pcrPacket 0 0 1 244 0x7E) 2)).map
        (fun r => r.2.m_PCR) = some 90002400 := by
  decide

/-- C21 as the code has it: a packet without start bit whose continuity counter differs from
`(last + 1) mod 16` is answered with `StreamPackedLost` and leaves the assembly buffer and
its recorded size as they were, in every state, so that `getPacket` still returns the bytes
of the abandoned unit; the assembler is idle. The bytes go away with the next start packet:
after it the buffer holds nothing but a tail of that packet. -/
theorem C21_buffer_kept_on_continuity_break (A : xPES_Assembler) (P : List Nat)
    (H : xTS_PacketHeader) (AF : xTS_AdaptationField) (hS : H.isPayloadStart = false)
    (hcc : (H.getCC : Int) ≠ (A.m_LastContinuityCounter + 1) % 16) :
    ∃ s, A.AbsorbPacket P H AF = some (eResult.StreamPackedLost, s) ∧ s.m_Started = false ∧
      s.m_Buffer = A.m_Buffer ∧ s.m_BufferSize = A.m_BufferSize ∧ s.getPacket = A.m_Buffer ∧
      (∀ (P2 : List Nat) (H2 : xTS_PacketHeader) (AF2 : xTS_AdaptationField) (r : eResult)
        (s2 : xPES_Assembler), H2.isPayloadStart = true →
        s.AbsorbPacket P2 H2 AF2 = some (r, s2) → ∃ n, s2.m_Buffer = P2.drop n) :=
  ⟨_, AbsorbPacket_mismatch A P H AF hS hcc, rfl, rfl, rfl, rfl,
    fun P2 H2 AF2 r s2 hS2 h2 => AbsorbPacket_start_buffer _ P2 H2 AF2 r s2 hS2 h2⟩

/-- Witness of C21: counter 9 after 5 with one byte in the buffer. -/
theorem C21_buffer_kept_on_continuity_break_witness :
    ∃ s, (assembling 136 5).AbsorbPacket (continuationPacket 136 9 0xBB) (continuationHeader 9)
        (default : xTS_AdaptationField).Reset = some (eResult.StreamPackedLost, s) ∧
      s.m_Started = false ∧ s.m_Buffer = [0xAA] ∧ s.m_BufferSize = 1 ∧ s.getPacket = [0xAA] :=
  (C21_buffer_kept_on_continuity_break (assembling 136 5) (continuationPacket 136 9 0xBB)
    (continuationHeader 9) (default : xTS_AdaptationField).Reset (by decide) (by decide)).imp
    fun _ hs => ⟨hs.1, hs.2.1, hs.2.2.1, hs.2.2.2.1, hs.2.2.2.2.1⟩

/-- Counterexample to C21 as stated: the assembler is assembling with the byte `0xAA` in its
buffer and recorded counter 5; after the packet with counter 9 the result is
`StreamPackedLost`, the buffer still holds `0xAA`, the recorded size is 1 and `getPacket`
returns `0xAA`. -/
theorem C21_abandoned_bytes_still_in_buffer :
    (assembling 136 5).m_Started = true ∧ (assembling 136 5).m_Buffer = [0xAA] ∧
    (absorbPrepared (assembling 136 5) (continuationPacket 136 9 0xBB)).map
        (fun r => (r.1, r.2.m_Buffer, r.2.m_BufferSize, r.2.getPacket)) =
      some (eResult.StreamPackedLost, [0xAA], 1, [0xAA]) := by
  decide

/-- C22, at packets of 188 bytes whose byte 4 exceeds 184: `xTS_AdaptationField::Parse` does
not report failure. For the packets with length byte 255 and 185 it returns 255 and 185 and
stores them as the length, so that `4 + getNumBytes()` is 260 and 190; handed to an assembler
in the middle of a unit, either packet makes `AbsorbPacket` copy from beyond the end of the
packet. In general `Parse` returns byte 4 of every packet of 188 bytes and stores it as the
length, whatever its value; every completion packet of 188 bytes whose length byte is 184 or
more makes `AbsorbPacket` copy from beyond the end of the packet; only the empty buffer is
answered with `NOT_VALID`. -/
theorem C22_length_byte_above_184_accepted :
    (lengthPacket 255).length = 188 ∧ (lengthPacket 185).length = 188 ∧
    ((default : xTS_AdaptationField).Reset.Parse (lengthPacket 255) 3).map
        (fun r => (r.1, r.2.getAdaptationFieldLength, 4 + r.2.getNumBytes)) =
      some (255, 255, 260) ∧
    ((default : xTS_AdaptationField).Reset.Parse (lengthPacket 185) 3).map
        (fun r => (r.1, r.2.getAdaptationFieldLength, 4 + r.2.getNumBytes)) =
      some (185, 185, 190) ∧
    absorbPrepared (assembling 136 15) (lengthPacket 255) = none ∧
    absorbPrepared (assembling 136 15) (lengthPacket 185) = none ∧
    (∀ (self : xTS_AdaptationField) (P : List Nat) (c : Nat), P.length = 188 →
      ∃ s, self.Parse P c = some ((byteFrom P 0 4 : Int), s) ∧
        (byteFrom P 0 4 : Int) ≠ NOT_VALID ∧
        s.getAdaptationFieldLength = byteFrom P 0 4 ∧ s.getNumBytes = byteFrom P 0 4 + 1) ∧
    (∀ (A : xPES_Assembler) (P : List Nat) (H : xTS_PacketHeader) (AF : xTS_AdaptationField),
      P.length = 188 → prepareHeader default P = some H →
      prepareAdaptationField default P H = some AF → H.isPayloadStart = false →
      (H.getCC : Int) = (A.m_LastContinuityCounter + 1) % 16 → A.m_Started = true →
      H.hasAdaptationField = true → 184 ≤ byteFrom P 0 4 → A.AbsorbPacket P H AF = none) ∧
    (∀ (self : xTS_AdaptationField) (c : Nat),
      (self.Parse [] c).map Prod.fst = some NOT_VALID) := by
  refine ⟨by decide, by decide, by decide, by decide, by decide, by decide, ?_, ?_, ?_⟩
  · intro self P c hlen
    refine ⟨_, AF_Parse_eq self P c (by omega) (fun _ => by omega), ?_, rfl, rfl⟩
    unfold NOT_VALID; omega
  · intro A P H AF hlen _ hP hS hcc hst hAF hb
    obtain ⟨AF2, h1, h2⟩ := prepareAdaptationField_present default P H (by omega) hAF
    rw [hP] at h1
    cases h1
    refine AbsorbPacket_finish_outside A P H AF hS hcc hst hAF (by omega) ?_
    have : AF.getNumBytes = AF.getAdaptationFieldLength + 1 := rfl
    omega
  · intro self c
    rfl

/-- C23 as the code has it: after `Init` and any sequence of `AbsorbPacket` calls that return,
the recorded size `m_BufferSize` is the number of bytes in `m_Buffer` modulo `2 ^ 32`; the
two are equal while the buffer holds fewer than `2 ^ 32` bytes, and then `getNumPacketBytes`
is the number of bytes in the buffer plus the PES header length whenever that sum is an
`int32_t` value. -/
theorem C23_recorded_size_modulo (A0 : xPES_Assembler) (PID : Int)
    (calls : List (List Nat × xTS_PacketHeader × xTS_AdaptationField)) (s : xPES_Assembler)
    (h : absorbCalls (A0.Init PID) calls = some s) :
    s.m_BufferSize = s.m_Buffer.length % 2 ^ 32 ∧
    (s.m_Buffer.length < 2 ^ 32 → s.m_BufferSize = s.m_Buffer.length) ∧
    (s.m_Buffer.length < 2 ^ 32 →
      -2 ^ 31 ≤ (s.m_Buffer.length : Int) + s.m_PESH.getHeaderLength →
      (s.m_Buffer.length : Int) + s.m_PESH.getHeaderLength < 2 ^ 31 →
      s.getNumPacketBytes = (s.m_Buffer.length : Int) + s.m_PESH.getHeaderLength) := by
  have hi := absorbCalls_size calls (A0.Init PID) s h rfl
  have h2 : s.m_Buffer.length < 2 ^ 32 → s.m_BufferSize = s.m_Buffer.length :=
    fun hl => by rw [hi]; exact Nat.mod_eq_of_lt hl
  refine ⟨hi, h2, fun hl hlo hhi => ?_⟩
  have hs := h2 hl
  unfold xPES_Assembler.getNumPacketBytes toInt32
  rw [hs]
  split <;> omega

/-- Witness of C23: a start packet and one continuation packet. -/
theorem C23_recorded_size_modulo_witness :
    ∃ s, absorbCalls ((default : xPES_Assembler).Init 136)
        [(startPacket 136,
          { m_SB := 0x47, m_E := false, m_S := true, m_T := false, m_PID := 136, m_TSC := 0,
            m_AFC := 3, m_CC := 0 },
          { m_AdaptationFieldControl := 3, m_AdaptationFieldLength := 1, m_DC := false,
            m_RA := false, m_SP := false, m_PR := false, m_OR := false, m_SF := false,
            m_TP := false, m_EX := false, m_PCR := 0 }),
         (continuationPacket 136 1 0xBB, continuationHeader 1,
          (default : xTS_AdaptationField).Reset)] = some s ∧
      s.m_BufferSize = s.m_Buffer.length % 2 ^ 32 :=
  (Option.isSome_iff_exists.mp (by decide)).imp
    fun s hs => ⟨hs, (C23_recorded_size_modulo default 136 _ s hs).1⟩

/-- Counterexample to C23 as stated: a start packet and 23342213 continuation packets, all of
188 bytes and appended from offsets 20 and 4, are taken; the buffer then holds 4294967360
bytes and the recorded size is 64. -/
theorem C23_recorded_size_wraps_at_4_GiB :
    ∃ s, absorbAll ((default : xPES_Assembler).Init 136) (longUnit 23342213) =
        some (eResult.AssemblingStarted ::
          List.replicate 23342213 eResult.AssemblingContinue, s) ∧
      s.m_Buffer.length = 4294967360 ∧ s.m_BufferSize = 64 := by
  obtain ⟨s, h1, h2, h3⟩ := longUnit_absorbed 23342213
  exact ⟨s, h1, h2, h3⟩

end MpegTs
